import Mathlib

/-!
Verification of the KiCad 9 schematic generator
(`KiCAD-Generator-tools/scripts/kicad9_schematic.py`).

The Python module is shallowly embedded: real-valued coordinates become `ℚ`
(every number the program manipulates is a decimal literal or a result of
field operations on them), Python dicts keyed by strings become association
lists or functions into `Option`, and fallible operations return
`Option`/`Except`.  Each definition cites the source lines it translates.
-/

namespace KicadSch

/-- Rounding helper of `Point.snap` (kicad9_schematic.py lines 110-114):
round-half-away-from-zero, implemented as `floor (x + 0.5)` for `x ≥ 0`
and `ceil (x - 0.5)` otherwise. -/
def round_half_up (x : ℚ) : ℤ :=
  if 0 ≤ x then ⌊x + 1/2⌋ else ⌈x - 1/2⌉

/-- Data class `Point` (lines 99-132): 2D sheet-space coordinate. -/
structure Point where
  x : ℚ
  y : ℚ
deriving DecidableEq

/-- Method `Point.snap` (lines 105-118): snap each coordinate to the grid
using round-half-away-from-zero. -/
def Point.snap (p : Point) (grid : ℚ) : Point :=
  ⟨(round_half_up (p.x / grid) : ℚ) * grid,
   (round_half_up (p.y / grid) : ℚ) * grid⟩

/-- Method `Point.__add__` (lines 120-121). -/
def Point.add (p other : Point) : Point :=
  ⟨p.x + other.x, p.y + other.y⟩

/-- Method `Point.__sub__` (lines 123-124). -/
def Point.sub (p other : Point) : Point :=
  ⟨p.x - other.x, p.y - other.y⟩

/-- Method `Point.__eq__` (lines 126-129): per-coordinate absolute-tolerance
comparison with tolerance `0.001`. -/
def point_eq_tol (p other : Point) : Prop :=
  |p.x - other.x| < 1/1000 ∧ |p.y - other.y| < 1/1000

instance (p q : Point) : Decidable (point_eq_tol p q) := by
  unfold point_eq_tol
  infer_instance

/-- Python built-in `round(x, 2)` used by `Point.__hash__` (line 132):
round-half-to-even (banker's rounding) at two decimal places, modelled on
exact rationals. -/
def round_half_even (x : ℚ) : ℤ :=
  let f := ⌊x⌋
  if x - f < 1/2 then f
  else if 1/2 < x - f then f + 1
  else if Even f then f else f + 1

/-- Two-decimal rounding `round(x, 2)` (line 132) on exact rationals. -/
def py_round2 (x : ℚ) : ℚ :=
  (round_half_even (x * 100) : ℚ) / 100

/-- Method `Point.__hash__` (lines 131-132): the tuple fed to `hash`,
namely both coordinates rounded to 2 decimal places.  Equal tuples hash
equal; the contract question is whether `__eq__`-equal points produce equal
tuples. -/
def point_hash_key (p : Point) : ℚ × ℚ :=
  (py_round2 p.x, py_round2 p.y)

/-- Data class `Wire` (lines 179-195): an undirected segment. -/
structure Wire where
  start : Point
  «end» : Point
deriving DecidableEq

/-- Python tuple comparison `(a, b) > (c, d)` used by `Wire.__hash__`
(line 187): lexicographic. -/
def pair_gt (a b c d : ℚ) : Prop :=
  c < a ∨ (a = c ∧ d < b)

instance (a b c d : ℚ) : Decidable (pair_gt a b c d) := by
  unfold pair_gt
  infer_instance

/-- Method `Wire.__hash__` (lines 185-189): the tuple fed to `hash`, the two
raw endpoint coordinate pairs in normalized (sorted) order. -/
def wire_hash_key (w : Wire) : ℚ × ℚ × ℚ × ℚ :=
  if pair_gt w.start.x w.start.y w.«end».x w.«end».y then
    (w.«end».x, w.«end».y, w.start.x, w.start.y)
  else
    (w.start.x, w.start.y, w.«end».x, w.«end».y)

/-- Method `Wire.__eq__` (lines 191-195): endpoint-wise `Point.__eq__` in
either orientation. -/
def wire_eq_tol (w other : Wire) : Prop :=
  (point_eq_tol w.start other.start ∧ point_eq_tol w.«end» other.«end») ∨
  (point_eq_tol w.start other.«end» ∧ point_eq_tol w.«end» other.start)

instance (w v : Wire) : Decidable (wire_eq_tol w v) := by
  unfold wire_eq_tol
  infer_instance

/-! Sheet-layout constants (lines 446-456). -/

/-- A3 sheet width in mm (line 447). -/
def SHEET_WIDTH : ℚ := 420

/-- A3 sheet height in mm (line 448). -/
def SHEET_HEIGHT : ℚ := 297

/-- Margin from sheet edges in mm (line 449). -/
def SHEET_MARGIN : ℚ := 20

/-- KiCad grid pitch in mm (line 451): 2.54. -/
def GRID_SIZE : ℚ := 127/50

/-- Reserved decoupling-capacitor strip height (line 455). -/
def DECOUPLING_AREA_HEIGHT : ℚ := 50

/-- Top edge of the reserved decoupling strip (line 456). -/
def DECOUPLING_AREA_TOP : ℚ := SHEET_HEIGHT - SHEET_MARGIN - DECOUPLING_AREA_HEIGHT

/-- One-dimensional snap, the per-coordinate action of `Point.snap`
(lines 115-118). -/
def snap1 (grid v : ℚ) : ℚ :=
  (round_half_up (v / grid) : ℚ) * grid

theorem Point.snap_eq_snap1 (p : Point) (grid : ℚ) :
    p.snap grid = ⟨snap1 grid p.x, snap1 grid p.y⟩ := rfl

/-! Arithmetic facts about `round_half_up`. -/

theorem round_half_up_intCast (n : ℤ) : round_half_up (n : ℚ) = n := by
  unfold round_half_up
  by_cases h : (0 : ℚ) ≤ (n : ℚ)
  · rw [if_pos h, Int.floor_eq_iff]
    constructor
    · linarith
    · push_cast
      linarith
  · rw [if_neg h, Int.ceil_eq_iff]
    constructor
    · push_cast
      linarith
    · linarith

theorem round_half_up_eq_of_abs_lt (n : ℤ) (x : ℚ) (h : |x - n| < 1/2) :
    round_half_up x = n := by
  rw [abs_lt] at h
  obtain ⟨h1, h2⟩ := h
  unfold round_half_up
  by_cases h0 : 0 ≤ x
  · rw [if_pos h0]
    rw [Int.floor_eq_iff]
    constructor
    · linarith
    · push_cast
      linarith
  · rw [if_neg h0]
    rw [Int.ceil_eq_iff]
    constructor
    · push_cast
      linarith
    · linarith

theorem round_half_up_eq_nonneg (n : ℤ) (x : ℚ)
    (h0 : 0 ≤ x) (h1 : (n : ℚ) - 1/2 ≤ x) (h2 : x < (n : ℚ) + 1/2) :
    round_half_up x = n := by
  unfold round_half_up
  rw [if_pos h0]
  rw [Int.floor_eq_iff]
  constructor
  · linarith
  · push_cast
    linarith

/-- Basic bracketing of `snap1` for a nonnegative input: the snapped value
lies within half a grid unit, with the excess side closed (ties round up,
away from zero). -/
theorem snap1_bounds_nonneg (g v : ℚ) (hg : 0 < g) (hv : 0 ≤ v) :
    v - g/2 < snap1 g v ∧ snap1 g v ≤ v + g/2 := by
  unfold snap1 round_half_up
  have hx : 0 ≤ v / g := div_nonneg hv (le_of_lt hg)
  rw [if_pos hx]
  have hvg : v / g * g = v := div_mul_cancel₀ v (ne_of_gt hg)
  have hfl : (⌊v / g + 1/2⌋ : ℚ) ≤ v / g + 1/2 := Int.floor_le _
  have hfu : v / g + 1/2 < (⌊v / g + 1/2⌋ : ℚ) + 1 := Int.lt_floor_add_one _
  constructor
  · have h1 : (v / g - 1/2) * g < (⌊v / g + 1/2⌋ : ℚ) * g :=
      mul_lt_mul_of_pos_right (by linarith) hg
    calc v - g/2 = (v / g - 1/2) * g := by rw [sub_mul, hvg]; ring
    _ < (⌊v / g + 1/2⌋ : ℚ) * g := h1
  · have h2 : (⌊v / g + 1/2⌋ : ℚ) * g ≤ (v / g + 1/2) * g :=
      mul_le_mul_of_nonneg_right hfl (le_of_lt hg)
    calc (⌊v / g + 1/2⌋ : ℚ) * g ≤ (v / g + 1/2) * g := h2
    _ = v + g/2 := by rw [add_mul, hvg]; ring

theorem snap1_nonneg (g v : ℚ) (hg : 0 < g) (hv : 0 ≤ v) : 0 ≤ snap1 g v := by
  unfold snap1 round_half_up
  have hx : 0 ≤ v / g := div_nonneg hv (le_of_lt hg)
  rw [if_pos hx]
  have hfz : (0 : ℤ) ≤ ⌊v / g + 1/2⌋ := by
    apply Int.le_floor.mpr
    push_cast
    linarith
  have : (0 : ℚ) ≤ (⌊v / g + 1/2⌋ : ℚ) := by exact_mod_cast hfz
  exact mul_nonneg this (le_of_lt hg)

/-- `snap1` is the identity on multiples of the grid. -/
theorem snap1_int_mul (g : ℚ) (hg : g ≠ 0) (n : ℤ) :
    snap1 g ((n : ℚ) * g) = (n : ℚ) * g := by
  unfold snap1
  rw [mul_div_assoc, div_self hg, mul_one, round_half_up_intCast]

/-- If `v` sits within half a grid unit of the grid point `n * g`
(left end closed, right end open) and is nonnegative, it snaps to `n * g`. -/
theorem snap1_eq_of_close_nonneg (g v : ℚ) (n : ℤ) (hg : 0 < g) (hv : 0 ≤ v)
    (h1 : (n : ℚ) * g - g/2 ≤ v) (h2 : v < (n : ℚ) * g + g/2) :
    snap1 g v = (n : ℚ) * g := by
  unfold snap1
  have hb1 : (n : ℚ) - 1/2 ≤ v / g := by
    rw [le_div_iff hg]
    nlinarith
  have hb2 : v / g < (n : ℚ) + 1/2 := by
    rw [div_lt_iff hg]
    nlinarith
  rw [round_half_up_eq_nonneg n (v / g) (div_nonneg hv (le_of_lt hg)) hb1 hb2]

/-- Strictly-within-half-a-grid-unit inputs snap to the nearby grid point,
regardless of sign. -/
theorem snap1_eq_of_abs_lt (g v : ℚ) (n : ℤ) (hg : 0 < g)
    (h : |v - (n : ℚ) * g| < g/2) :
    snap1 g v = (n : ℚ) * g := by
  unfold snap1
  have hclose : |v / g - (n : ℚ)| < 1/2 := by
    have hrw : v / g - (n : ℚ) = (v - (n : ℚ) * g) / g := by
      field_simp
      ring
    rw [hrw, abs_div, abs_of_pos hg, div_lt_iff hg]
    linarith
  rw [round_half_up_eq_of_abs_lt n (v / g) hclose]

theorem snap1_idem (g : ℚ) (hg : g ≠ 0) (v : ℚ) :
    snap1 g (snap1 g v) = snap1 g v :=
  snap1_int_mul g hg (round_half_up (v / g))

/-- C8: snap is idempotent at the fixed grid pitch: every point already
produced by `Point.snap` is a fixed point of `Point.snap`
(kicad9_schematic.py lines 105-118, pitch `GRID_SIZE` from line 451). -/
theorem claim_C8_snap_idempotent (p : Point) :
    (p.snap GRID_SIZE).snap GRID_SIZE = p.snap GRID_SIZE := by
  have hg : GRID_SIZE ≠ 0 := by norm_num [GRID_SIZE]
  show Point.mk (snap1 GRID_SIZE (snap1 GRID_SIZE p.x))
      (snap1 GRID_SIZE (snap1 GRID_SIZE p.y))
    = Point.mk (snap1 GRID_SIZE p.x) (snap1 GRID_SIZE p.y)
  rw [snap1_idem GRID_SIZE hg, snap1_idem GRID_SIZE hg]

/-- C5 counterexample: the points `(1, 0)` and `(1.5, 0)` are within half a
grid unit (1.27 mm) of each other in every coordinate, yet `Point.snap`
maps them to the distinct outputs `(0, 0)` and `(2.54, 0)`: two points
within half a grid unit of each other need NOT share a snap output. -/
theorem claim_C5_counterexample :
    (|(1 : ℚ) - 3/2| < GRID_SIZE/2 ∧ |(0 : ℚ) - 0| < GRID_SIZE/2) ∧
    Point.snap ⟨1, 0⟩ GRID_SIZE = ⟨0, 0⟩ ∧
    Point.snap ⟨3/2, 0⟩ GRID_SIZE = ⟨127/50, 0⟩ ∧
    Point.snap ⟨1, 0⟩ GRID_SIZE ≠ Point.snap ⟨3/2, 0⟩ GRID_SIZE := by
  refine ⟨⟨?_, ?_⟩, ?_, ?_, ?_⟩ <;> with_unfolding_all decide

/-- C5 (amended): two points whose coordinates lie strictly within half a
grid unit of the SAME grid point snap to that grid point (hence to the same
output), and a coordinate exactly on a half-grid-unit boundary rounds away
from zero (up for nonnegative multiples, down for nonpositive ones), not to
the nearest even multiple. -/
theorem claim_C5_amended :
    (∀ (n m : ℤ) (p q : Point),
      |p.x - (n : ℚ) * GRID_SIZE| < GRID_SIZE/2 →
      |p.y - (m : ℚ) * GRID_SIZE| < GRID_SIZE/2 →
      |q.x - (n : ℚ) * GRID_SIZE| < GRID_SIZE/2 →
      |q.y - (m : ℚ) * GRID_SIZE| < GRID_SIZE/2 →
      p.snap GRID_SIZE = ⟨(n : ℚ) * GRID_SIZE, (m : ℚ) * GRID_SIZE⟩ ∧
      p.snap GRID_SIZE = q.snap GRID_SIZE) ∧
    (∀ n : ℤ, 0 ≤ n →
      snap1 GRID_SIZE ((n : ℚ) * GRID_SIZE + GRID_SIZE/2) = ((n + 1 : ℤ) : ℚ) * GRID_SIZE) ∧
    (∀ n : ℤ, n ≤ 0 →
      snap1 GRID_SIZE ((n : ℚ) * GRID_SIZE - GRID_SIZE/2) = ((n - 1 : ℤ) : ℚ) * GRID_SIZE) := by
  have hg : (0 : ℚ) < GRID_SIZE := by norm_num [GRID_SIZE]
  refine ⟨?_, ?_, ?_⟩
  · intro n m p q hpx hpy hqx hqy
    have ep : p.snap GRID_SIZE = ⟨(n : ℚ) * GRID_SIZE, (m : ℚ) * GRID_SIZE⟩ := by
      rw [Point.snap_eq_snap1, snap1_eq_of_abs_lt _ _ _ hg hpx,
        snap1_eq_of_abs_lt _ _ _ hg hpy]
    have eq' : q.snap GRID_SIZE = ⟨(n : ℚ) * GRID_SIZE, (m : ℚ) * GRID_SIZE⟩ := by
      rw [Point.snap_eq_snap1, snap1_eq_of_abs_lt _ _ _ hg hqx,
        snap1_eq_of_abs_lt _ _ _ hg hqy]
    exact ⟨ep, ep.trans eq'.symm⟩
  · intro n hn
    unfold snap1
    have hx : ((n : ℚ) * GRID_SIZE + GRID_SIZE/2) / GRID_SIZE = (n : ℚ) + 1/2 := by
      field_simp
      ring
    rw [hx, round_half_up_eq_nonneg (n + 1)]
    · have hc : (0 : ℚ) ≤ (n : ℚ) := by exact_mod_cast hn
      linarith
    · push_cast
      linarith
    · push_cast
      linarith
  · intro n hn
    unfold snap1
    have hx : ((n : ℚ) * GRID_SIZE - GRID_SIZE/2) / GRID_SIZE = (n : ℚ) - 1/2 := by
      field_simp
      ring
    have hneg : ¬ (0 : ℚ) ≤ (n : ℚ) - 1/2 := by
      have : (n : ℚ) ≤ 0 := by exact_mod_cast hn
      linarith
    rw [hx]
    unfold round_half_up
    rw [if_neg hneg]
    have : (n : ℚ) - 1/2 - 1/2 = ((n - 1 : ℤ) : ℚ) := by
      push_cast
      ring
    rw [this, Int.ceil_intCast]

/-- C5 amended witness: concrete instances of both parts — two points on
either side of the grid origin snap together, and the exact boundary value
`1.27` snaps up to `2.54`, away from zero. -/
theorem claim_C5_amended_witness :
    Point.snap ⟨1/2, 0⟩ GRID_SIZE = Point.snap ⟨-(1/2), 0⟩ GRID_SIZE ∧
    snap1 GRID_SIZE (GRID_SIZE/2) = 127/50 := by
  constructor
  · exact (claim_C5_amended.1 0 0 ⟨1/2, 0⟩ ⟨-(1/2), 0⟩
      (by with_unfolding_all decide) (by with_unfolding_all decide)
      (by with_unfolding_all decide) (by with_unfolding_all decide)).2
  · have h := claim_C5_amended.2.1 0 (le_refl 0)
    norm_num [GRID_SIZE] at h
    norm_num [GRID_SIZE]
    exact h

/-- C10: `Point.__eq__` is a 0.001-tolerance comparison while
`Point.__hash__` rounds to 2 decimals, so the points `(0.0049, 0)` and
`(0.0051, 0)` compare equal but produce different hash tuples; the same
pair of coordinates embedded in `Wire` endpoints gives equal wires with
different hash tuples.  The equal-implies-equal-hash contract is violated. -/
theorem claim_C10_eq_hash_inconsistent :
    point_eq_tol ⟨49/10000, 0⟩ ⟨51/10000, 0⟩ ∧
    point_hash_key ⟨49/10000, 0⟩ ≠ point_hash_key ⟨51/10000, 0⟩ ∧
    wire_eq_tol ⟨⟨49/10000, 0⟩, ⟨0, 0⟩⟩ ⟨⟨51/10000, 0⟩, ⟨0, 0⟩⟩ ∧
    wire_hash_key ⟨⟨49/10000, 0⟩, ⟨0, 0⟩⟩ ≠ wire_hash_key ⟨⟨51/10000, 0⟩, ⟨0, 0⟩⟩ := by
  refine ⟨?_, ?_, ?_, ?_⟩ <;> with_unfolding_all decide

/-! C2: anchor immutability.  `constrain_to_sheet` (lines 609-632) clamps a
position into the usable sheet rectangle; the anchor grid placement
(lines 952-968) stores `snap(constrain(cell))` and the final
constrain-to-sheet pass (lines 1260-1270) re-applies `snap(constrain(·))`
with identical margins.  The crux is that the stored anchor position is a
fixed point of that final pass. -/

/-- One-dimensional clamp `max lo (min hi v)`, the per-coordinate action of
`constrain_to_sheet` (lines 621 and 631). -/
def clamp1 (lo hi v : ℚ) : ℚ := max lo (min hi v)

/-- Function `constrain_to_sheet` (lines 609-632): clamp a position so the
part's (asymmetric) extent stays inside the sheet, optionally keeping out
of the reserved decoupling strip at the bottom. -/
def constrain_to_sheet (pos : Point) (allow_decoupling_area : Bool)
    (half_width y_extent_up y_extent_down : ℚ) : Point :=
  let x_min := SHEET_MARGIN + half_width
  let x_max := SHEET_WIDTH - SHEET_MARGIN - half_width
  let x := max x_min (min x_max pos.x)
  let y_min := SHEET_MARGIN + y_extent_up
  let y_max := if allow_decoupling_area then SHEET_HEIGHT - SHEET_MARGIN - y_extent_down
    else DECOUPLING_AREA_TOP - y_extent_down
  let y := max y_min (min y_max pos.y)
  ⟨x, y⟩

/-- Function `snap_to_grid` (lines 604-606). -/
def snap_to_grid (pos : Point) : Point := pos.snap GRID_SIZE

/-- Key lemma: a value that was clamped into `[lo, hi]` and then snapped is
left unchanged by another clamp-then-snap round, provided the second clamp
uses the same lower bound, an upper bound at least as large, and the lower
bound is nonnegative (all sheet bounds are). -/
theorem snap1_clamp1_fixed (g lo hi hi' v : ℚ)
    (hg : 0 < g) (hlo : 0 ≤ lo) (hhi : hi ≤ hi') :
    snap1 g (clamp1 lo hi' (snap1 g (clamp1 lo hi v))) = snap1 g (clamp1 lo hi v) := by
  set a := clamp1 lo hi v with ha
  have hage : lo ≤ a := le_max_left _ _
  have ha0 : 0 ≤ a := le_trans hlo hage
  obtain ⟨hql, hqu⟩ := snap1_bounds_nonneg g a hg ha0
  set q := snap1 g a with hq
  have hqn : q = ((round_half_up (a / g) : ℤ) : ℚ) * g := rfl
  rcases lt_or_le q lo with hcase1 | hcase2
  · -- the snapped value fell below the lower bound: re-clamp gives `lo`,
    -- and `lo` lies strictly within the upper half-interval of `q`
    have hcl : clamp1 lo hi' q = lo :=
      max_eq_left (le_trans (min_le_right _ _) (le_of_lt hcase1))
    rw [hcl, hqn]
    apply snap1_eq_of_close_nonneg g lo _ hg hlo
    · rw [← hqn]
      linarith
    · rw [← hqn]
      linarith
  · rcases le_or_lt q hi' with hcase3 | hcase4
    · -- the snapped value is inside the (relaxed) bounds: re-clamp is the
      -- identity and snap is idempotent on grid multiples
      have hcl : clamp1 lo hi' q = q := by
        unfold clamp1
        rw [min_eq_right hcase3]
        exact max_eq_right hcase2
      rw [hcl, hqn]
      exact snap1_int_mul g (ne_of_gt hg) _
    · rcases le_or_lt lo hi' with hcase5 | hcase6
      · -- the snapped value exceeds the upper bound: re-clamp gives `hi'`,
        -- which lies within the lower half-interval of `q` (tie included,
        -- and the tie rounds up because everything is nonnegative)
        have hahi : a ≤ hi' := by
          rw [ha]
          unfold clamp1
          exact max_le hcase5 (le_trans (min_le_left _ _) hhi)
        have hcl : clamp1 lo hi' q = hi' := by
          unfold clamp1
          rw [min_eq_left (le_of_lt hcase4)]
          exact max_eq_right hcase5
        rw [hcl, hqn]
        apply snap1_eq_of_close_nonneg g hi' _ hg (le_trans hlo hcase5)
        · rw [← hqn]
          linarith
        · rw [← hqn]
          linarith
      · -- degenerate bounds `hi' < lo`: both clamps return `lo`
        have hal : a = lo := by
          rw [ha]
          unfold clamp1
          exact max_eq_left (le_trans (min_le_left _ _) (le_trans hhi (le_of_lt hcase6)))
        have hcl : clamp1 lo hi' q = lo := by
          unfold clamp1
          exact max_eq_left (le_trans (min_le_left _ _) (le_of_lt hcase6))
        rw [hcl, ← hal]

theorem constrain_to_sheet_eq_clamp1 (pos : Point) (allow : Bool)
    (hw yu yd : ℚ) :
    constrain_to_sheet pos allow hw yu yd =
      ⟨clamp1 (SHEET_MARGIN + hw) (SHEET_WIDTH - SHEET_MARGIN - hw) pos.x,
       clamp1 (SHEET_MARGIN + yu)
         (if allow then SHEET_HEIGHT - SHEET_MARGIN - yd else DECOUPLING_AREA_TOP - yd)
         pos.y⟩ := rfl

/-- Anchor grid placement of one main part (lines 961-968): the cell-center
position is constrained to the sheet with `allow_decoupling_area=False` and
margins `width/2 + 5`, `y_extent_up + 5`, `y_extent_down + 5`, then snapped.
This value is stored in `main_positions` (line 969) and restored verbatim in
step 9 (lines 1142-1147). -/
def anchor_grid_pos (cell : Point) (width y_up y_down : ℚ) : Point :=
  snap_to_grid (constrain_to_sheet cell false (width/2 + 5) (y_up + 5) (y_down + 5))

/-- The final constrain-to-sheet pass applied to every part after overlap
resolution (lines 1260-1270): same margins as the grid placement, with
`allow_decoupling_area` set per part. -/
def final_constrain_pass (pos : Point) (is_decoupling : Bool)
    (width y_up y_down : ℚ) : Point :=
  snap_to_grid (constrain_to_sheet pos is_decoupling (width/2 + 5) (y_up + 5) (y_down + 5))

/-- The stored anchor grid position is a fixed point of the final
constrain-to-sheet pass, for either value of the decoupling flag. -/
theorem final_pass_fixes_anchor (cell : Point) (width y_up y_down : ℚ)
    (isDec : Bool)
    (hw : 0 ≤ SHEET_MARGIN + (width/2 + 5))
    (hy : 0 ≤ SHEET_MARGIN + (y_up + 5)) :
    final_constrain_pass (anchor_grid_pos cell width y_up y_down) isDec width y_up y_down
      = anchor_grid_pos cell width y_up y_down := by
  have hg : (0 : ℚ) < GRID_SIZE := by norm_num [GRID_SIZE]
  have hyhi : DECOUPLING_AREA_TOP - (y_down + 5) ≤
      (if isDec then SHEET_HEIGHT - SHEET_MARGIN - (y_down + 5)
       else DECOUPLING_AREA_TOP - (y_down + 5)) := by
    cases isDec
    · exact le_refl _
    · show DECOUPLING_AREA_TOP - (y_down + 5) ≤ SHEET_HEIGHT - SHEET_MARGIN - (y_down + 5)
      unfold DECOUPLING_AREA_TOP SHEET_HEIGHT SHEET_MARGIN DECOUPLING_AREA_HEIGHT
      linarith
  simp only [final_constrain_pass, anchor_grid_pos, snap_to_grid,
    constrain_to_sheet_eq_clamp1, Point.snap_eq_snap1, Bool.false_eq_true,
    if_false, Point.mk.injEq]
  constructor
  · exact snap1_clamp1_fixed GRID_SIZE _ _ _ _ hg hw (le_refl _)
  · exact snap1_clamp1_fixed GRID_SIZE _ _ _ _ hg hy hyhi

/-! Pipeline model for C2.  After the anchor grid placement (step 3,
lines 952-970) the remaining stages act on the mutable per-part positions:

* steps 4-8 (directional placement lines 987-1048, force-directed
  refinement lines 1068-1089, decoupling placement lines 1103-1136) —
  modelled as an UNRESTRICTED position update `u1`, a superset of what the
  code can do (step 8 may even move a main-part capacitor);
* step 9 (lines 1142-1147) restores every main part to its stored
  `main_positions` entry;
* step 10 and the post-constrain overlap loop (lines 1220-1254 and
  1273-1293) iterate `for part in movable_parts: part.position = ...` —
  they write only positions of parts whose ref is NOT a main ref, which is
  the frame hypothesis on the updates `u2`, `u3`;
* the final constrain-to-sheet pass (lines 1260-1270) applies
  `final_constrain_pass` to every part.

Positions are modelled as a function from refs, as the code's dicts keyed
by the (unique) reference designators are. -/

/-- Step 9 (lines 1145-1147): restore each main part to its stored grid
position; other parts keep their current position. -/
def restore_main (mains : List (String × Point)) (pos : String → Point) :
    String → Point :=
  fun r => match mains.lookup r with
    | some p => p
    | none => pos r

/-- The final constrain-to-sheet pass over all parts (lines 1260-1270):
`symd` gives each ref's symbol `width`, `y_extent_up`, `y_extent_down`, and
`decf` says whether the ref is a decoupling cap (allowed into the reserved
strip). -/
def constrain_all (symd : String → ℚ × ℚ × ℚ) (decf : String → Bool)
    (pos : String → Point) : String → Point :=
  fun r => final_constrain_pass (pos r) (decf r) (symd r).1 (symd r).2.1 (symd r).2.2

/-- Everything the engine does after the anchor grid positions are stored:
arbitrary stages `u1` (steps 4-8), the step-9 restore, a mains-preserving
stage `u2` (step-10 overlap elimination), the final constrain pass, and a
mains-preserving stage `u3` (the post-constrain overlap loop). -/
def placement_tail (mains : List (String × Point))
    (symd : String → ℚ × ℚ × ℚ) (decf : String → Bool)
    (u1 u2 u3 : (String → Point) → (String → Point))
    (pos0 : String → Point) : String → Point :=
  u3 (constrain_all symd decf (u2 (restore_main mains (u1 pos0))))

/-- C2: anchor immutability.  If a main part's ref is recorded in
`main_positions` with its anchor grid position (as step 3 stores it), and
the overlap-elimination stages only write non-main positions (as their
loops do), then its position after the whole remaining pipeline — including
the final constrain-to-sheet pass — is exactly the grid-assigned position.
The nonnegativity hypotheses say the part's margins do not exceed the sheet
(they hold for every real symbol, whose extents are nonnegative). -/
theorem claim_C2_anchor_immutable (mains : List (String × Point))
    (symd : String → ℚ × ℚ × ℚ) (decf : String → Bool)
    (u1 u2 u3 : (String → Point) → (String → Point))
    (pos0 : String → Point) (r : String) (cell : Point)
    (h2 : ∀ pos s, (mains.lookup s).isSome → u2 pos s = pos s)
    (h3 : ∀ pos s, (mains.lookup s).isSome → u3 pos s = pos s)
    (hr : mains.lookup r = some (anchor_grid_pos cell (symd r).1 (symd r).2.1 (symd r).2.2))
    (hw : 0 ≤ SHEET_MARGIN + ((symd r).1/2 + 5))
    (hy : 0 ≤ SHEET_MARGIN + ((symd r).2.1 + 5)) :
    placement_tail mains symd decf u1 u2 u3 pos0 r
      = anchor_grid_pos cell (symd r).1 (symd r).2.1 (symd r).2.2 := by
  have hsome : (mains.lookup r).isSome := by rw [hr]; rfl
  unfold placement_tail
  rw [h3 _ _ hsome]
  unfold constrain_all
  rw [h2 _ _ hsome]
  unfold restore_main
  rw [hr]
  exact final_pass_fixes_anchor cell _ _ _ (decf r) hw hy

/-- C2 witness: a concrete run.  One anchor `U1` with a 20 mm wide symbol
and symmetric 10 mm extents sits at the grid position derived from cell
center `(210, 120)`; an adversarial stage `u1` moves everything to the
origin, `u2`/`u3` are identity (trivially mains-preserving), and the final
position still equals the stored grid position, which evaluates to
`(210.82, 119.38)`. -/
theorem claim_C2_anchor_immutable_witness :
    placement_tail [("U1", anchor_grid_pos ⟨210, 120⟩ 20 10 10)]
        (fun _ => (20, 10, 10)) (fun _ => false)
        (fun _ => fun _ => ⟨0, 0⟩) id id
        (fun _ => ⟨210, 297/2⟩) "U1"
      = anchor_grid_pos ⟨210, 120⟩ 20 10 10 ∧
    anchor_grid_pos ⟨210, 120⟩ 20 10 10 = ⟨10541/50, 5969/50⟩ := by
  constructor
  · exact claim_C2_anchor_immutable [("U1", anchor_grid_pos ⟨210, 120⟩ 20 10 10)]
      (fun _ => (20, 10, 10)) (fun _ => false)
      (fun _ => fun _ => ⟨0, 0⟩) id id (fun _ => ⟨210, 297/2⟩) "U1" ⟨210, 120⟩
      (fun _ _ _ => rfl) (fun _ _ _ => rfl) rfl
      (by norm_num [SHEET_MARGIN]) (by norm_num [SHEET_MARGIN])
  · simp only [anchor_grid_pos, snap_to_grid, constrain_to_sheet, Point.snap,
      GRID_SIZE, SHEET_MARGIN, SHEET_WIDTH, SHEET_HEIGHT, DECOUPLING_AREA_TOP,
      DECOUPLING_AREA_HEIGHT, Bool.false_eq_true, if_false, round_half_up,
      Point.mk.injEq]
    norm_num [max_def, min_def]

/-- Data class `SymbolPin` (lines 135-144): pin geometry relative to the
symbol origin, in the symbol's Y-up frame. -/
structure SymbolPin where
  name : String
  number : String
  x : ℚ
  y : ℚ
  rotation : ℤ
  length : ℚ
  electrical_type : String := "passive"
deriving DecidableEq

/-- Data class `SymbolDef` (lines 147-162): a parsed symbol template.  The
`pins` dict keyed by pin name becomes an association list. -/
structure SymbolDef where
  name : String
  lib_name : String
  pins : List (String × SymbolPin)
  properties : List (String × String)
  raw_sexp : String
  width : ℚ := 20
  height : ℚ := 20
  y_extent_up : ℚ := 10
  y_extent_down : ℚ := 10
deriving DecidableEq

/-- Data class `PartInstance` (lines 165-176). -/
structure PartInstance where
  ref : String
  value : String
  symbol : SymbolDef
  position : Point
  rotation : ℤ := 0
  belongs_to : Option String := none
  pins : List (String × String) := []
  lcsc : String := ""
  footprint : String := ""
deriving DecidableEq

/-- Function `get_pin_position` (lines 1319-1340): absolute pin coordinate
of a placed part — `None` when the pin name is absent from the symbol,
otherwise `position + (pin.x, -pin.y)` with the Y axis inverted once and
no snapping. -/
def get_pin_position (part : PartInstance) (pin_name : String) : Option Point :=
  match part.symbol.pins.lookup pin_name with
  | none => none
  | some pin => some ⟨part.position.x + pin.x, part.position.y - pin.y⟩

/-- C3: for every placed part, a pin name absent from the symbol yields no
position, and a present pin yields exactly `position + (pinX, -pinY)`
(`Point.add` is the source's `Point.__add__`), the Y sign flipped exactly
once and the result not snapped. -/
theorem claim_C3_pin_position (part : PartInstance) (pin_name : String) :
    (part.symbol.pins.lookup pin_name = none →
      get_pin_position part pin_name = none) ∧
    (∀ pin, part.symbol.pins.lookup pin_name = some pin →
      get_pin_position part pin_name
        = some (Point.add part.position ⟨pin.x, -pin.y⟩)) := by
  constructor
  · intro h
    unfold get_pin_position
    rw [h]
  · intro pin h
    unfold get_pin_position Point.add
    rw [h]
    simp [sub_eq_add_neg]

/-- Sample pin at symbol-local `(3, 5)` with rotation 0 (claim C3's test
vector). -/
def sample_pin : SymbolPin := ⟨"P1", "1", 3, 5, 0, 127/50, "passive"⟩

/-- Sample symbol holding only `sample_pin`. -/
def sample_symbol : SymbolDef :=
  ⟨"SAMPLE", "JLCPCB", [("P1", sample_pin)], [], "", 20, 20, 10, 10⟩

/-- Sample placed part at sheet position `(100, 100)`. -/
def sample_part : PartInstance :=
  ⟨"U1", "SAMPLE", sample_symbol, ⟨100, 100⟩, 0, none, [("P1", "GND")], "", ""⟩

/-- C3 witness: the sample pin at `(3, 5)` on a part at `(100, 100)` lands
at `(103, 95)`; an unknown pin name gives no position; and the returned
point is NOT a fixed point of grid snapping, so the result is indeed
unsnapped. -/
theorem claim_C3_pin_position_witness :
    get_pin_position sample_part "P1" = some ⟨103, 95⟩ ∧
    get_pin_position sample_part "NOPE" = none ∧
    snap_to_grid ⟨103, 95⟩ ≠ ⟨103, 95⟩ := by
  refine ⟨?_, ?_, ?_⟩
  · have h := (claim_C3_pin_position sample_part "P1").2 sample_pin rfl
    rw [h]
    simp only [Point.add, sample_part, sample_pin, Option.some.injEq, Point.mk.injEq]
    norm_num
  · exact (claim_C3_pin_position sample_part "NOPE").1 rfl
  · have hval : snap_to_grid ⟨103, 95⟩ = ⟨5207/50, 4699/50⟩ := by
      simp only [snap_to_grid, Point.snap, GRID_SIZE, round_half_up, Point.mk.injEq]
      norm_num
    rw [hval]
    simp only [ne_eq, Point.mk.injEq]
    norm_num

/-! C4: fail-fast on missing symbols (lines 793-871). -/

/-- Minimum pin count that triggers Y-spacing scaling (line 333). -/
def MIN_PINS_FOR_SCALING : ℕ := 3

/-- Input part record (spec §6): the dict fields that
`create_part_instance` reads (lines 799-806), with the same `.get`
defaults. -/
structure PartData where
  ref : String := "X?"
  value : String := ""
  lcsc : String := ""
  footprint : String := ""
  pins : List (String × String) := []
  belongs_to : Option String := none
  id : String := ""
deriving DecidableEq

/-- Entry of the `missing_symbols` list (lines 812-817). -/
structure MissingRecord where
  ref : String
  lcsc : String
  value : String
  sym_name : String
deriving DecidableEq

/-- Symbol-name resolution (line 807): `lcsc_to_symbol.get(lcsc, value)`. -/
def resolve_sym_name (lcsc_to_symbol : String → Option String)
    (pd : PartData) : String :=
  (lcsc_to_symbol pd.lcsc).getD pd.value

/-- Fallback placeholder symbol for a missing entry (lines 818-826);
`sym_name or "Unknown"` maps the empty string to `"Unknown"`. -/
def fallback_symbol (sym_name : String) : SymbolDef :=
  ⟨if sym_name = "" then "Unknown" else sym_name, "JLCPCB", [], [], "", 20, 20, 10, 10⟩

/-- Helper `create_part_instance` (lines 799-841): build the instance,
filing a `MissingRecord` when the resolved symbol is absent.  The Y
scaling `scale_symbol_y(symbol, 2.0)` applied when the symbol has
`MIN_PINS_FOR_SCALING` or more pins (lines 829-830) is abstracted as
`scaleFn`; claim C4 holds for every such function since scaling does not
touch the missing-symbol bookkeeping. -/
def create_part_instance (symbols : String → Option SymbolDef)
    (lcsc_to_symbol : String → Option String) (scaleFn : SymbolDef → SymbolDef)
    (position : Point) (pd : PartData) : PartInstance × Option MissingRecord :=
  let sym_name := resolve_sym_name lcsc_to_symbol pd
  let resolved := match symbols sym_name with
    | some s => (s, (none : Option MissingRecord))
    | none => (fallback_symbol sym_name, some ⟨pd.ref, pd.lcsc, pd.value, sym_name⟩)
  let symbol := if MIN_PINS_FOR_SCALING ≤ resolved.1.pins.length
    then scaleFn resolved.1 else resolved.1
  (⟨pd.ref, pd.value, symbol, position, 0, pd.belongs_to, pd.pins, pd.lcsc,
    pd.footprint⟩, resolved.2)

/-- Step 1 of `place_parts_by_group` plus its validation (lines 843-871):
create every instance at the sheet-center placeholder, then abort with the
COMPLETE missing list before any grouping or placement stage runs;
otherwise hand the created instances to the later stages. -/
def place_parts_validate (symbols : String → Option SymbolDef)
    (lcsc_to_symbol : String → Option String) (scaleFn : SymbolDef → SymbolDef)
    (parts : List PartData) : Except (List MissingRecord) (List PartInstance) :=
  let created := parts.map
    (create_part_instance symbols lcsc_to_symbol scaleFn ⟨SHEET_WIDTH/2, SHEET_HEIGHT/2⟩)
  let missing := created.filterMap (fun pr => pr.2)
  if missing.isEmpty then .ok (created.map (fun pr => pr.1)) else .error missing

/-- The missing record `create_part_instance` files for `pd`, as a
standalone characterization used to state C4. -/
def missing_of (symbols : String → Option SymbolDef)
    (lcsc_to_symbol : String → Option String) (pd : PartData) :
    Option MissingRecord :=
  match symbols (resolve_sym_name lcsc_to_symbol pd) with
  | some _ => none
  | none => some ⟨pd.ref, pd.lcsc, pd.value, resolve_sym_name lcsc_to_symbol pd⟩

theorem create_part_instance_snd (symbols : String → Option SymbolDef)
    (lcsc_to_symbol : String → Option String) (scaleFn : SymbolDef → SymbolDef)
    (position : Point) (pd : PartData) :
    (create_part_instance symbols lcsc_to_symbol scaleFn position pd).2
      = missing_of symbols lcsc_to_symbol pd := by
  unfold create_part_instance missing_of
  cases h : symbols (resolve_sym_name lcsc_to_symbol pd) <;> simp [h]

/-- C4: if at least one part's resolved symbol is absent from the library,
step 1 aborts with exactly the complete, input-ordered list of
missing-symbol records, before any grouping or placement stage has run;
conversely, if every part's symbol resolves, no error is raised and one
instance per input part is handed to the later stages. -/
theorem claim_C4_fail_fast (symbols : String → Option SymbolDef)
    (lcsc_to_symbol : String → Option String) (scaleFn : SymbolDef → SymbolDef)
    (parts : List PartData) :
    ((∃ pd ∈ parts, symbols (resolve_sym_name lcsc_to_symbol pd) = none) →
      place_parts_validate symbols lcsc_to_symbol scaleFn parts
        = .error (parts.filterMap (missing_of symbols lcsc_to_symbol))) ∧
    ((∀ pd ∈ parts, (symbols (resolve_sym_name lcsc_to_symbol pd)).isSome) →
      ∃ placed, place_parts_validate symbols lcsc_to_symbol scaleFn parts
          = .ok placed ∧ placed.length = parts.length) := by
  have hmiss : (parts.map
        (create_part_instance symbols lcsc_to_symbol scaleFn
          ⟨SHEET_WIDTH/2, SHEET_HEIGHT/2⟩)).filterMap (fun pr => pr.2)
      = parts.filterMap (missing_of symbols lcsc_to_symbol) := by
    rw [List.filterMap_map]
    congr 1
    funext pd
    exact create_part_instance_snd symbols lcsc_to_symbol scaleFn _ pd
  constructor
  · rintro ⟨pd, hpd, hnone⟩
    simp only [place_parts_validate]
    rw [hmiss]
    have hmem : (⟨pd.ref, pd.lcsc, pd.value, resolve_sym_name lcsc_to_symbol pd⟩ :
        MissingRecord) ∈ parts.filterMap (missing_of symbols lcsc_to_symbol) := by
      rw [List.mem_filterMap]
      refine ⟨pd, hpd, ?_⟩
      unfold missing_of
      rw [hnone]
    have hne : ¬ (parts.filterMap (missing_of symbols lcsc_to_symbol)).isEmpty = true := by
      intro hempty
      rw [List.isEmpty_iff] at hempty
      rw [hempty] at hmem
      exact List.not_mem_nil _ hmem
    rw [if_neg hne]
  · intro hall
    have hnil : parts.filterMap (missing_of symbols lcsc_to_symbol) = [] := by
      rw [List.filterMap_eq_nil]
      intro pd hpd
      unfold missing_of
      obtain ⟨s, hs⟩ := Option.isSome_iff_exists.mp (hall pd hpd)
      rw [hs]
    refine ⟨(parts.map (create_part_instance symbols lcsc_to_symbol scaleFn
        ⟨SHEET_WIDTH/2, SHEET_HEIGHT/2⟩)).map (fun pr => pr.1), ?_, ?_⟩
    · simp only [place_parts_validate]
      rw [hmiss, hnil]
      rfl
    · rw [List.length_map, List.length_map]

/-- Library lookup used by the C4 witness: only `"RES"` resolves. -/
def sample_symbols : String → Option SymbolDef :=
  fun s => if s = "RES" then some sample_symbol else none

/-- C4 witness: with a two-part input whose second part references the
unknown symbol `CAPX`, validation aborts with exactly that one missing
record; with only the resolvable part, it succeeds with one instance. -/
theorem claim_C4_fail_fast_witness :
    place_parts_validate sample_symbols (fun _ => none) id
        [⟨"R1", "RES", "", "", [], none, ""⟩, ⟨"C1", "CAPX", "", "", [], none, ""⟩]
      = .error [⟨"C1", "", "CAPX", "CAPX"⟩] ∧
    (∃ placed, place_parts_validate sample_symbols (fun _ => none) id
        [⟨"R1", "RES", "", "", [], none, ""⟩] = .ok placed ∧ placed.length = 1) := by
  constructor
  · have h := (claim_C4_fail_fast sample_symbols (fun _ => none) id
      [⟨"R1", "RES", "", "", [], none, ""⟩, ⟨"C1", "CAPX", "", "", [], none, ""⟩]).1
      ⟨⟨"C1", "CAPX", "", "", [], none, ""⟩, by simp, rfl⟩
    rw [h]
    rfl
  · exact (claim_C4_fail_fast sample_symbols (fun _ => none) id
      [⟨"R1", "RES", "", "", [], none, ""⟩]).2
      (by
        intro pd hpd
        rw [List.mem_singleton] at hpd
        subst hpd
        rfl)

/-! C6: net-label shortening (lines 1406-1437). -/

/-- Maximum characters for net labels (line 1406). -/
def MAX_LABEL_LENGTH : ℕ := 10

/-- Python `f"02d"`-style zero-padding used for the numeric suffix
(line 1429), for `1 ≤ i ≤ 99`. -/
def pad2 (i : ℕ) : String :=
  if i < 10 then "0" ++ toString i else toString i

/-- The candidate list of the suffix loop (lines 1427-1429): the strings
`base ++ "01"`, ..., `base ++ "99"` tried in order. -/
def shorten_candidates (base : String) : List String :=
  (List.range 99).map (fun i => base ++ pad2 (i + 1))

/-- The suffix loop of lines 1426-1431: take the first candidate not yet
used; if the loop exhausts without a `break`, the colliding truncation is
kept as-is (the silent fall-through of lines 1428-1432). -/
def shorten_pick (used : List String) (short0 : String) : String :=
  match (shorten_candidates (short0.take (MAX_LABEL_LENGTH - 2))).find?
      (fun c => !(used.contains c)) with
  | some c => c
  | none => short0

/-- One iteration of the `shorten_net_names` loop (lines 1417-1434):
truncate to the budget, then if the truncation is already used run the
suffix loop.  The accumulator is the pair of the `mapping` dict (an assoc
list in insertion order) and the `used_names` set; a Python set is
represented by the list of its elements with `insert` as cons, since only
membership is ever queried. -/
def shorten_step (acc : List (String × String) × List String) (net : String) :
    List (String × String) × List String :=
  let short0 := if net.length ≤ MAX_LABEL_LENGTH then net else net.take MAX_LABEL_LENGTH
  let short := if acc.2.contains short0 then shorten_pick acc.2 short0 else short0
  (acc.1 ++ [(net, short)], short :: acc.2)

/-- Function `shorten_net_names` (lines 1408-1437): full-name to
short-name mapping in input order.  Its docstring promises
"Ensures uniqueness by appending numbers if needed". -/
def shorten_net_names (net_names : List String) : List (String × String) :=
  (net_names.foldl shorten_step ([], [])).1

/-- Names 1-25 of the failing input for C6. -/
def big_net_a : List String :=
  ["AAAAAAAA01", "AAAAAAAA02", "AAAAAAAA03", "AAAAAAAA04", "AAAAAAAA05",
   "AAAAAAAA06", "AAAAAAAA07", "AAAAAAAA08", "AAAAAAAA09", "AAAAAAAA10",
   "AAAAAAAA11", "AAAAAAAA12", "AAAAAAAA13", "AAAAAAAA14", "AAAAAAAA15",
   "AAAAAAAA16", "AAAAAAAA17", "AAAAAAAA18", "AAAAAAAA19", "AAAAAAAA20",
   "AAAAAAAA21", "AAAAAAAA22", "AAAAAAAA23", "AAAAAAAA24", "AAAAAAAA25"]

/-- Names 26-50 of the failing input for C6. -/
def big_net_b : List String :=
  ["AAAAAAAA26", "AAAAAAAA27", "AAAAAAAA28", "AAAAAAAA29", "AAAAAAAA30",
   "AAAAAAAA31", "AAAAAAAA32", "AAAAAAAA33", "AAAAAAAA34", "AAAAAAAA35",
   "AAAAAAAA36", "AAAAAAAA37", "AAAAAAAA38", "AAAAAAAA39", "AAAAAAAA40",
   "AAAAAAAA41", "AAAAAAAA42", "AAAAAAAA43", "AAAAAAAA44", "AAAAAAAA45",
   "AAAAAAAA46", "AAAAAAAA47", "AAAAAAAA48", "AAAAAAAA49", "AAAAAAAA50"]

/-- Names 51-75 of the failing input for C6. -/
def big_net_c : List String :=
  ["AAAAAAAA51", "AAAAAAAA52", "AAAAAAAA53", "AAAAAAAA54", "AAAAAAAA55",
   "AAAAAAAA56", "AAAAAAAA57", "AAAAAAAA58", "AAAAAAAA59", "AAAAAAAA60",
   "AAAAAAAA61", "AAAAAAAA62", "AAAAAAAA63", "AAAAAAAA64", "AAAAAAAA65",
   "AAAAAAAA66", "AAAAAAAA67", "AAAAAAAA68", "AAAAAAAA69", "AAAAAAAA70",
   "AAAAAAAA71", "AAAAAAAA72", "AAAAAAAA73", "AAAAAAAA74", "AAAAAAAA75"]

/-- Names 76-99 of the failing input for C6. -/
def big_net_d : List String :=
  ["AAAAAAAA76", "AAAAAAAA77", "AAAAAAAA78", "AAAAAAAA79", "AAAAAAAA80",
   "AAAAAAAA81", "AAAAAAAA82", "AAAAAAAA83", "AAAAAAAA84", "AAAAAAAA85",
   "AAAAAAAA86", "AAAAAAAA87", "AAAAAAAA88", "AAAAAAAA89", "AAAAAAAA90",
   "AAAAAAAA91", "AAAAAAAA92", "AAAAAAAA93", "AAAAAAAA94", "AAAAAAAA95",
   "AAAAAAAA96", "AAAAAAAA97", "AAAAAAAA98", "AAAAAAAA99"]

/-- The failing input for C6: the 99 ten-character names `AAAAAAAA01` ..
`AAAAAAAA99` followed by the eleven-character name `AAAAAAAA01X`, whose
truncation and all 99 suffixed candidates are already taken. -/
def big_net_list : List String :=
  big_net_a ++ big_net_b ++ big_net_c ++ big_net_d ++ ["AAAAAAAA01X"]

/-- The loop state after the first 25 names: each is its own short name
(the set is newest-first). -/
def shorten_state_25 : List (String × String) × List String :=
  (  [("AAAAAAAA01", "AAAAAAAA01"), ("AAAAAAAA02", "AAAAAAAA02"),
   ("AAAAAAAA03", "AAAAAAAA03"), ("AAAAAAAA04", "AAAAAAAA04"),
   ("AAAAAAAA05", "AAAAAAAA05"), ("AAAAAAAA06", "AAAAAAAA06"),
   ("AAAAAAAA07", "AAAAAAAA07"), ("AAAAAAAA08", "AAAAAAAA08"),
   ("AAAAAAAA09", "AAAAAAAA09"), ("AAAAAAAA10", "AAAAAAAA10"),
   ("AAAAAAAA11", "AAAAAAAA11"), ("AAAAAAAA12", "AAAAAAAA12"),
   ("AAAAAAAA13", "AAAAAAAA13"), ("AAAAAAAA14", "AAAAAAAA14"),
   ("AAAAAAAA15", "AAAAAAAA15"), ("AAAAAAAA16", "AAAAAAAA16"),
   ("AAAAAAAA17", "AAAAAAAA17"), ("AAAAAAAA18", "AAAAAAAA18"),
   ("AAAAAAAA19", "AAAAAAAA19"), ("AAAAAAAA20", "AAAAAAAA20"),
   ("AAAAAAAA21", "AAAAAAAA21"), ("AAAAAAAA22", "AAAAAAAA22"),
   ("AAAAAAAA23", "AAAAAAAA23"), ("AAAAAAAA24", "AAAAAAAA24"),
   ("AAAAAAAA25", "AAAAAAAA25")],
  ["AAAAAAAA25", "AAAAAAAA24", "AAAAAAAA23", "AAAAAAAA22", "AAAAAAAA21",
   "AAAAAAAA20", "AAAAAAAA19", "AAAAAAAA18", "AAAAAAAA17", "AAAAAAAA16",
   "AAAAAAAA15", "AAAAAAAA14", "AAAAAAAA13", "AAAAAAAA12", "AAAAAAAA11",
   "AAAAAAAA10", "AAAAAAAA09", "AAAAAAAA08", "AAAAAAAA07", "AAAAAAAA06",
   "AAAAAAAA05", "AAAAAAAA04", "AAAAAAAA03", "AAAAAAAA02", "AAAAAAAA01"])

/-- The loop state after the first 50 names. -/
def shorten_state_50 : List (String × String) × List String :=
  (  [("AAAAAAAA01", "AAAAAAAA01"), ("AAAAAAAA02", "AAAAAAAA02"),
   ("AAAAAAAA03", "AAAAAAAA03"), ("AAAAAAAA04", "AAAAAAAA04"),
   ("AAAAAAAA05", "AAAAAAAA05"), ("AAAAAAAA06", "AAAAAAAA06"),
   ("AAAAAAAA07", "AAAAAAAA07"), ("AAAAAAAA08", "AAAAAAAA08"),
   ("AAAAAAAA09", "AAAAAAAA09"), ("AAAAAAAA10", "AAAAAAAA10"),
   ("AAAAAAAA11", "AAAAAAAA11"), ("AAAAAAAA12", "AAAAAAAA12"),
   ("AAAAAAAA13", "AAAAAAAA13"), ("AAAAAAAA14", "AAAAAAAA14"),
   ("AAAAAAAA15", "AAAAAAAA15"), ("AAAAAAAA16", "AAAAAAAA16"),
   ("AAAAAAAA17", "AAAAAAAA17"), ("AAAAAAAA18", "AAAAAAAA18"),
   ("AAAAAAAA19", "AAAAAAAA19"), ("AAAAAAAA20", "AAAAAAAA20"),
   ("AAAAAAAA21", "AAAAAAAA21"), ("AAAAAAAA22", "AAAAAAAA22"),
   ("AAAAAAAA23", "AAAAAAAA23"), ("AAAAAAAA24", "AAAAAAAA24"),
   ("AAAAAAAA25", "AAAAAAAA25"), ("AAAAAAAA26", "AAAAAAAA26"),
   ("AAAAAAAA27", "AAAAAAAA27"), ("AAAAAAAA28", "AAAAAAAA28"),
   ("AAAAAAAA29", "AAAAAAAA29"), ("AAAAAAAA30", "AAAAAAAA30"),
   ("AAAAAAAA31", "AAAAAAAA31"), ("AAAAAAAA32", "AAAAAAAA32"),
   ("AAAAAAAA33", "AAAAAAAA33"), ("AAAAAAAA34", "AAAAAAAA34"),
   ("AAAAAAAA35", "AAAAAAAA35"), ("AAAAAAAA36", "AAAAAAAA36"),
   ("AAAAAAAA37", "AAAAAAAA37"), ("AAAAAAAA38", "AAAAAAAA38"),
   ("AAAAAAAA39", "AAAAAAAA39"), ("AAAAAAAA40", "AAAAAAAA40"),
   ("AAAAAAAA41", "AAAAAAAA41"), ("AAAAAAAA42", "AAAAAAAA42"),
   ("AAAAAAAA43", "AAAAAAAA43"), ("AAAAAAAA44", "AAAAAAAA44"),
   ("AAAAAAAA45", "AAAAAAAA45"), ("AAAAAAAA46", "AAAAAAAA46"),
   ("AAAAAAAA47", "AAAAAAAA47"), ("AAAAAAAA48", "AAAAAAAA48"),
   ("AAAAAAAA49", "AAAAAAAA49"), ("AAAAAAAA50", "AAAAAAAA50")],
  ["AAAAAAAA50", "AAAAAAAA49", "AAAAAAAA48", "AAAAAAAA47", "AAAAAAAA46",
   "AAAAAAAA45", "AAAAAAAA44", "AAAAAAAA43", "AAAAAAAA42", "AAAAAAAA41",
   "AAAAAAAA40", "AAAAAAAA39", "AAAAAAAA38", "AAAAAAAA37", "AAAAAAAA36",
   "AAAAAAAA35", "AAAAAAAA34", "AAAAAAAA33", "AAAAAAAA32", "AAAAAAAA31",
   "AAAAAAAA30", "AAAAAAAA29", "AAAAAAAA28", "AAAAAAAA27", "AAAAAAAA26",
   "AAAAAAAA25", "AAAAAAAA24", "AAAAAAAA23", "AAAAAAAA22", "AAAAAAAA21",
   "AAAAAAAA20", "AAAAAAAA19", "AAAAAAAA18", "AAAAAAAA17", "AAAAAAAA16",
   "AAAAAAAA15", "AAAAAAAA14", "AAAAAAAA13", "AAAAAAAA12", "AAAAAAAA11",
   "AAAAAAAA10", "AAAAAAAA09", "AAAAAAAA08", "AAAAAAAA07", "AAAAAAAA06",
   "AAAAAAAA05", "AAAAAAAA04", "AAAAAAAA03", "AAAAAAAA02", "AAAAAAAA01"])

/-- The loop state after the first 75 names. -/
def shorten_state_75 : List (String × String) × List String :=
  (  [("AAAAAAAA01", "AAAAAAAA01"), ("AAAAAAAA02", "AAAAAAAA02"),
   ("AAAAAAAA03", "AAAAAAAA03"), ("AAAAAAAA04", "AAAAAAAA04"),
   ("AAAAAAAA05", "AAAAAAAA05"), ("AAAAAAAA06", "AAAAAAAA06"),
   ("AAAAAAAA07", "AAAAAAAA07"), ("AAAAAAAA08", "AAAAAAAA08"),
   ("AAAAAAAA09", "AAAAAAAA09"), ("AAAAAAAA10", "AAAAAAAA10"),
   ("AAAAAAAA11", "AAAAAAAA11"), ("AAAAAAAA12", "AAAAAAAA12"),
   ("AAAAAAAA13", "AAAAAAAA13"), ("AAAAAAAA14", "AAAAAAAA14"),
   ("AAAAAAAA15", "AAAAAAAA15"), ("AAAAAAAA16", "AAAAAAAA16"),
   ("AAAAAAAA17", "AAAAAAAA17"), ("AAAAAAAA18", "AAAAAAAA18"),
   ("AAAAAAAA19", "AAAAAAAA19"), ("AAAAAAAA20", "AAAAAAAA20"),
   ("AAAAAAAA21", "AAAAAAAA21"), ("AAAAAAAA22", "AAAAAAAA22"),
   ("AAAAAAAA23", "AAAAAAAA23"), ("AAAAAAAA24", "AAAAAAAA24"),
   ("AAAAAAAA25", "AAAAAAAA25"), ("AAAAAAAA26", "AAAAAAAA26"),
   ("AAAAAAAA27", "AAAAAAAA27"), ("AAAAAAAA28", "AAAAAAAA28"),
   ("AAAAAAAA29", "AAAAAAAA29"), ("AAAAAAAA30", "AAAAAAAA30"),
   ("AAAAAAAA31", "AAAAAAAA31"), ("AAAAAAAA32", "AAAAAAAA32"),
   ("AAAAAAAA33", "AAAAAAAA33"), ("AAAAAAAA34", "AAAAAAAA34"),
   ("AAAAAAAA35", "AAAAAAAA35"), ("AAAAAAAA36", "AAAAAAAA36"),
   ("AAAAAAAA37", "AAAAAAAA37"), ("AAAAAAAA38", "AAAAAAAA38"),
   ("AAAAAAAA39", "AAAAAAAA39"), ("AAAAAAAA40", "AAAAAAAA40"),
   ("AAAAAAAA41", "AAAAAAAA41"), ("AAAAAAAA42", "AAAAAAAA42"),
   ("AAAAAAAA43", "AAAAAAAA43"), ("AAAAAAAA44", "AAAAAAAA44"),
   ("AAAAAAAA45", "AAAAAAAA45"), ("AAAAAAAA46", "AAAAAAAA46"),
   ("AAAAAAAA47", "AAAAAAAA47"), ("AAAAAAAA48", "AAAAAAAA48"),
   ("AAAAAAAA49", "AAAAAAAA49"), ("AAAAAAAA50", "AAAAAAAA50"),
   ("AAAAAAAA51", "AAAAAAAA51"), ("AAAAAAAA52", "AAAAAAAA52"),
   ("AAAAAAAA53", "AAAAAAAA53"), ("AAAAAAAA54", "AAAAAAAA54"),
   ("AAAAAAAA55", "AAAAAAAA55"), ("AAAAAAAA56", "AAAAAAAA56"),
   ("AAAAAAAA57", "AAAAAAAA57"), ("AAAAAAAA58", "AAAAAAAA58"),
   ("AAAAAAAA59", "AAAAAAAA59"), ("AAAAAAAA60", "AAAAAAAA60"),
   ("AAAAAAAA61", "AAAAAAAA61"), ("AAAAAAAA62", "AAAAAAAA62"),
   ("AAAAAAAA63", "AAAAAAAA63"), ("AAAAAAAA64", "AAAAAAAA64"),
   ("AAAAAAAA65", "AAAAAAAA65"), ("AAAAAAAA66", "AAAAAAAA66"),
   ("AAAAAAAA67", "AAAAAAAA67"), ("AAAAAAAA68", "AAAAAAAA68"),
   ("AAAAAAAA69", "AAAAAAAA69"), ("AAAAAAAA70", "AAAAAAAA70"),
   ("AAAAAAAA71", "AAAAAAAA71"), ("AAAAAAAA72", "AAAAAAAA72"),
   ("AAAAAAAA73", "AAAAAAAA73"), ("AAAAAAAA74", "AAAAAAAA74"),
   ("AAAAAAAA75", "AAAAAAAA75")],
  ["AAAAAAAA75", "AAAAAAAA74", "AAAAAAAA73", "AAAAAAAA72", "AAAAAAAA71",
   "AAAAAAAA70", "AAAAAAAA69", "AAAAAAAA68", "AAAAAAAA67", "AAAAAAAA66",
   "AAAAAAAA65", "AAAAAAAA64", "AAAAAAAA63", "AAAAAAAA62", "AAAAAAAA61",
   "AAAAAAAA60", "AAAAAAAA59", "AAAAAAAA58", "AAAAAAAA57", "AAAAAAAA56",
   "AAAAAAAA55", "AAAAAAAA54", "AAAAAAAA53", "AAAAAAAA52", "AAAAAAAA51",
   "AAAAAAAA50", "AAAAAAAA49", "AAAAAAAA48", "AAAAAAAA47", "AAAAAAAA46",
   "AAAAAAAA45", "AAAAAAAA44", "AAAAAAAA43", "AAAAAAAA42", "AAAAAAAA41",
   "AAAAAAAA40", "AAAAAAAA39", "AAAAAAAA38", "AAAAAAAA37", "AAAAAAAA36",
   "AAAAAAAA35", "AAAAAAAA34", "AAAAAAAA33", "AAAAAAAA32", "AAAAAAAA31",
   "AAAAAAAA30", "AAAAAAAA29", "AAAAAAAA28", "AAAAAAAA27", "AAAAAAAA26",
   "AAAAAAAA25", "AAAAAAAA24", "AAAAAAAA23", "AAAAAAAA22", "AAAAAAAA21",
   "AAAAAAAA20", "AAAAAAAA19", "AAAAAAAA18", "AAAAAAAA17", "AAAAAAAA16",
   "AAAAAAAA15", "AAAAAAAA14", "AAAAAAAA13", "AAAAAAAA12", "AAAAAAAA11",
   "AAAAAAAA10", "AAAAAAAA09", "AAAAAAAA08", "AAAAAAAA07", "AAAAAAAA06",
   "AAAAAAAA05", "AAAAAAAA04", "AAAAAAAA03", "AAAAAAAA02", "AAAAAAAA01"])

/-- The loop state after the first 99 names. -/
def shorten_state_99 : List (String × String) × List String :=
  (  [("AAAAAAAA01", "AAAAAAAA01"), ("AAAAAAAA02", "AAAAAAAA02"),
   ("AAAAAAAA03", "AAAAAAAA03"), ("AAAAAAAA04", "AAAAAAAA04"),
   ("AAAAAAAA05", "AAAAAAAA05"), ("AAAAAAAA06", "AAAAAAAA06"),
   ("AAAAAAAA07", "AAAAAAAA07"), ("AAAAAAAA08", "AAAAAAAA08"),
   ("AAAAAAAA09", "AAAAAAAA09"), ("AAAAAAAA10", "AAAAAAAA10"),
   ("AAAAAAAA11", "AAAAAAAA11"), ("AAAAAAAA12", "AAAAAAAA12"),
   ("AAAAAAAA13", "AAAAAAAA13"), ("AAAAAAAA14", "AAAAAAAA14"),
   ("AAAAAAAA15", "AAAAAAAA15"), ("AAAAAAAA16", "AAAAAAAA16"),
   ("AAAAAAAA17", "AAAAAAAA17"), ("AAAAAAAA18", "AAAAAAAA18"),
   ("AAAAAAAA19", "AAAAAAAA19"), ("AAAAAAAA20", "AAAAAAAA20"),
   ("AAAAAAAA21", "AAAAAAAA21"), ("AAAAAAAA22", "AAAAAAAA22"),
   ("AAAAAAAA23", "AAAAAAAA23"), ("AAAAAAAA24", "AAAAAAAA24"),
   ("AAAAAAAA25", "AAAAAAAA25"), ("AAAAAAAA26", "AAAAAAAA26"),
   ("AAAAAAAA27", "AAAAAAAA27"), ("AAAAAAAA28", "AAAAAAAA28"),
   ("AAAAAAAA29", "AAAAAAAA29"), ("AAAAAAAA30", "AAAAAAAA30"),
   ("AAAAAAAA31", "AAAAAAAA31"), ("AAAAAAAA32", "AAAAAAAA32"),
   ("AAAAAAAA33", "AAAAAAAA33"), ("AAAAAAAA34", "AAAAAAAA34"),
   ("AAAAAAAA35", "AAAAAAAA35"), ("AAAAAAAA36", "AAAAAAAA36"),
   ("AAAAAAAA37", "AAAAAAAA37"), ("AAAAAAAA38", "AAAAAAAA38"),
   ("AAAAAAAA39", "AAAAAAAA39"), ("AAAAAAAA40", "AAAAAAAA40"),
   ("AAAAAAAA41", "AAAAAAAA41"), ("AAAAAAAA42", "AAAAAAAA42"),
   ("AAAAAAAA43", "AAAAAAAA43"), ("AAAAAAAA44", "AAAAAAAA44"),
   ("AAAAAAAA45", "AAAAAAAA45"), ("AAAAAAAA46", "AAAAAAAA46"),
   ("AAAAAAAA47", "AAAAAAAA47"), ("AAAAAAAA48", "AAAAAAAA48"),
   ("AAAAAAAA49", "AAAAAAAA49"), ("AAAAAAAA50", "AAAAAAAA50"),
   ("AAAAAAAA51", "AAAAAAAA51"), ("AAAAAAAA52", "AAAAAAAA52"),
   ("AAAAAAAA53", "AAAAAAAA53"), ("AAAAAAAA54", "AAAAAAAA54"),
   ("AAAAAAAA55", "AAAAAAAA55"), ("AAAAAAAA56", "AAAAAAAA56"),
   ("AAAAAAAA57", "AAAAAAAA57"), ("AAAAAAAA58", "AAAAAAAA58"),
   ("AAAAAAAA59", "AAAAAAAA59"), ("AAAAAAAA60", "AAAAAAAA60"),
   ("AAAAAAAA61", "AAAAAAAA61"), ("AAAAAAAA62", "AAAAAAAA62"),
   ("AAAAAAAA63", "AAAAAAAA63"), ("AAAAAAAA64", "AAAAAAAA64"),
   ("AAAAAAAA65", "AAAAAAAA65"), ("AAAAAAAA66", "AAAAAAAA66"),
   ("AAAAAAAA67", "AAAAAAAA67"), ("AAAAAAAA68", "AAAAAAAA68"),
   ("AAAAAAAA69", "AAAAAAAA69"), ("AAAAAAAA70", "AAAAAAAA70"),
   ("AAAAAAAA71", "AAAAAAAA71"), ("AAAAAAAA72", "AAAAAAAA72"),
   ("AAAAAAAA73", "AAAAAAAA73"), ("AAAAAAAA74", "AAAAAAAA74"),
   ("AAAAAAAA75", "AAAAAAAA75"), ("AAAAAAAA76", "AAAAAAAA76"),
   ("AAAAAAAA77", "AAAAAAAA77"), ("AAAAAAAA78", "AAAAAAAA78"),
   ("AAAAAAAA79", "AAAAAAAA79"), ("AAAAAAAA80", "AAAAAAAA80"),
   ("AAAAAAAA81", "AAAAAAAA81"), ("AAAAAAAA82", "AAAAAAAA82"),
   ("AAAAAAAA83", "AAAAAAAA83"), ("AAAAAAAA84", "AAAAAAAA84"),
   ("AAAAAAAA85", "AAAAAAAA85"), ("AAAAAAAA86", "AAAAAAAA86"),
   ("AAAAAAAA87", "AAAAAAAA87"), ("AAAAAAAA88", "AAAAAAAA88"),
   ("AAAAAAAA89", "AAAAAAAA89"), ("AAAAAAAA90", "AAAAAAAA90"),
   ("AAAAAAAA91", "AAAAAAAA91"), ("AAAAAAAA92", "AAAAAAAA92"),
   ("AAAAAAAA93", "AAAAAAAA93"), ("AAAAAAAA94", "AAAAAAAA94"),
   ("AAAAAAAA95", "AAAAAAAA95"), ("AAAAAAAA96", "AAAAAAAA96"),
   ("AAAAAAAA97", "AAAAAAAA97"), ("AAAAAAAA98", "AAAAAAAA98"),
   ("AAAAAAAA99", "AAAAAAAA99")],
  ["AAAAAAAA99", "AAAAAAAA98", "AAAAAAAA97", "AAAAAAAA96", "AAAAAAAA95",
   "AAAAAAAA94", "AAAAAAAA93", "AAAAAAAA92", "AAAAAAAA91", "AAAAAAAA90",
   "AAAAAAAA89", "AAAAAAAA88", "AAAAAAAA87", "AAAAAAAA86", "AAAAAAAA85",
   "AAAAAAAA84", "AAAAAAAA83", "AAAAAAAA82", "AAAAAAAA81", "AAAAAAAA80",
   "AAAAAAAA79", "AAAAAAAA78", "AAAAAAAA77", "AAAAAAAA76", "AAAAAAAA75",
   "AAAAAAAA74", "AAAAAAAA73", "AAAAAAAA72", "AAAAAAAA71", "AAAAAAAA70",
   "AAAAAAAA69", "AAAAAAAA68", "AAAAAAAA67", "AAAAAAAA66", "AAAAAAAA65",
   "AAAAAAAA64", "AAAAAAAA63", "AAAAAAAA62", "AAAAAAAA61", "AAAAAAAA60",
   "AAAAAAAA59", "AAAAAAAA58", "AAAAAAAA57", "AAAAAAAA56", "AAAAAAAA55",
   "AAAAAAAA54", "AAAAAAAA53", "AAAAAAAA52", "AAAAAAAA51", "AAAAAAAA50",
   "AAAAAAAA49", "AAAAAAAA48", "AAAAAAAA47", "AAAAAAAA46", "AAAAAAAA45",
   "AAAAAAAA44", "AAAAAAAA43", "AAAAAAAA42", "AAAAAAAA41", "AAAAAAAA40",
   "AAAAAAAA39", "AAAAAAAA38", "AAAAAAAA37", "AAAAAAAA36", "AAAAAAAA35",
   "AAAAAAAA34", "AAAAAAAA33", "AAAAAAAA32", "AAAAAAAA31", "AAAAAAAA30",
   "AAAAAAAA29", "AAAAAAAA28", "AAAAAAAA27", "AAAAAAAA26", "AAAAAAAA25",
   "AAAAAAAA24", "AAAAAAAA23", "AAAAAAAA22", "AAAAAAAA21", "AAAAAAAA20",
   "AAAAAAAA19", "AAAAAAAA18", "AAAAAAAA17", "AAAAAAAA16", "AAAAAAAA15",
   "AAAAAAAA14", "AAAAAAAA13", "AAAAAAAA12", "AAAAAAAA11", "AAAAAAAA10",
   "AAAAAAAA09", "AAAAAAAA08", "AAAAAAAA07", "AAAAAAAA06", "AAAAAAAA05",
   "AAAAAAAA04", "AAAAAAAA03", "AAAAAAAA02", "AAAAAAAA01"])

/-- The mapping `shorten_net_names` produces on `big_net_list`: its first
and last entries assign the SAME short name `AAAAAAAA01` to the two
distinct nets `AAAAAAAA01` and `AAAAAAAA01X`. -/
def shorten_expected_map : List (String × String) :=
  [("AAAAAAAA01", "AAAAAAAA01"), ("AAAAAAAA02", "AAAAAAAA02"),
   ("AAAAAAAA03", "AAAAAAAA03"), ("AAAAAAAA04", "AAAAAAAA04"),
   ("AAAAAAAA05", "AAAAAAAA05"), ("AAAAAAAA06", "AAAAAAAA06"),
   ("AAAAAAAA07", "AAAAAAAA07"), ("AAAAAAAA08", "AAAAAAAA08"),
   ("AAAAAAAA09", "AAAAAAAA09"), ("AAAAAAAA10", "AAAAAAAA10"),
   ("AAAAAAAA11", "AAAAAAAA11"), ("AAAAAAAA12", "AAAAAAAA12"),
   ("AAAAAAAA13", "AAAAAAAA13"), ("AAAAAAAA14", "AAAAAAAA14"),
   ("AAAAAAAA15", "AAAAAAAA15"), ("AAAAAAAA16", "AAAAAAAA16"),
   ("AAAAAAAA17", "AAAAAAAA17"), ("AAAAAAAA18", "AAAAAAAA18"),
   ("AAAAAAAA19", "AAAAAAAA19"), ("AAAAAAAA20", "AAAAAAAA20"),
   ("AAAAAAAA21", "AAAAAAAA21"), ("AAAAAAAA22", "AAAAAAAA22"),
   ("AAAAAAAA23", "AAAAAAAA23"), ("AAAAAAAA24", "AAAAAAAA24"),
   ("AAAAAAAA25", "AAAAAAAA25"), ("AAAAAAAA26", "AAAAAAAA26"),
   ("AAAAAAAA27", "AAAAAAAA27"), ("AAAAAAAA28", "AAAAAAAA28"),
   ("AAAAAAAA29", "AAAAAAAA29"), ("AAAAAAAA30", "AAAAAAAA30"),
   ("AAAAAAAA31", "AAAAAAAA31"), ("AAAAAAAA32", "AAAAAAAA32"),
   ("AAAAAAAA33", "AAAAAAAA33"), ("AAAAAAAA34", "AAAAAAAA34"),
   ("AAAAAAAA35", "AAAAAAAA35"), ("AAAAAAAA36", "AAAAAAAA36"),
   ("AAAAAAAA37", "AAAAAAAA37"), ("AAAAAAAA38", "AAAAAAAA38"),
   ("AAAAAAAA39", "AAAAAAAA39"), ("AAAAAAAA40", "AAAAAAAA40"),
   ("AAAAAAAA41", "AAAAAAAA41"), ("AAAAAAAA42", "AAAAAAAA42"),
   ("AAAAAAAA43", "AAAAAAAA43"), ("AAAAAAAA44", "AAAAAAAA44"),
   ("AAAAAAAA45", "AAAAAAAA45"), ("AAAAAAAA46", "AAAAAAAA46"),
   ("AAAAAAAA47", "AAAAAAAA47"), ("AAAAAAAA48", "AAAAAAAA48"),
   ("AAAAAAAA49", "AAAAAAAA49"), ("AAAAAAAA50", "AAAAAAAA50"),
   ("AAAAAAAA51", "AAAAAAAA51"), ("AAAAAAAA52", "AAAAAAAA52"),
   ("AAAAAAAA53", "AAAAAAAA53"), ("AAAAAAAA54", "AAAAAAAA54"),
   ("AAAAAAAA55", "AAAAAAAA55"), ("AAAAAAAA56", "AAAAAAAA56"),
   ("AAAAAAAA57", "AAAAAAAA57"), ("AAAAAAAA58", "AAAAAAAA58"),
   ("AAAAAAAA59", "AAAAAAAA59"), ("AAAAAAAA60", "AAAAAAAA60"),
   ("AAAAAAAA61", "AAAAAAAA61"), ("AAAAAAAA62", "AAAAAAAA62"),
   ("AAAAAAAA63", "AAAAAAAA63"), ("AAAAAAAA64", "AAAAAAAA64"),
   ("AAAAAAAA65", "AAAAAAAA65"), ("AAAAAAAA66", "AAAAAAAA66"),
   ("AAAAAAAA67", "AAAAAAAA67"), ("AAAAAAAA68", "AAAAAAAA68"),
   ("AAAAAAAA69", "AAAAAAAA69"), ("AAAAAAAA70", "AAAAAAAA70"),
   ("AAAAAAAA71", "AAAAAAAA71"), ("AAAAAAAA72", "AAAAAAAA72"),
   ("AAAAAAAA73", "AAAAAAAA73"), ("AAAAAAAA74", "AAAAAAAA74"),
   ("AAAAAAAA75", "AAAAAAAA75"), ("AAAAAAAA76", "AAAAAAAA76"),
   ("AAAAAAAA77", "AAAAAAAA77"), ("AAAAAAAA78", "AAAAAAAA78"),
   ("AAAAAAAA79", "AAAAAAAA79"), ("AAAAAAAA80", "AAAAAAAA80"),
   ("AAAAAAAA81", "AAAAAAAA81"), ("AAAAAAAA82", "AAAAAAAA82"),
   ("AAAAAAAA83", "AAAAAAAA83"), ("AAAAAAAA84", "AAAAAAAA84"),
   ("AAAAAAAA85", "AAAAAAAA85"), ("AAAAAAAA86", "AAAAAAAA86"),
   ("AAAAAAAA87", "AAAAAAAA87"), ("AAAAAAAA88", "AAAAAAAA88"),
   ("AAAAAAAA89", "AAAAAAAA89"), ("AAAAAAAA90", "AAAAAAAA90"),
   ("AAAAAAAA91", "AAAAAAAA91"), ("AAAAAAAA92", "AAAAAAAA92"),
   ("AAAAAAAA93", "AAAAAAAA93"), ("AAAAAAAA94", "AAAAAAAA94"),
   ("AAAAAAAA95", "AAAAAAAA95"), ("AAAAAAAA96", "AAAAAAAA96"),
   ("AAAAAAAA97", "AAAAAAAA97"), ("AAAAAAAA98", "AAAAAAAA98"),
   ("AAAAAAAA99", "AAAAAAAA99"), ("AAAAAAAA01X", "AAAAAAAA01")]

/-- Candidates 1-25 of the suffix loop for base `AAAAAAAA`. -/
def shorten_cand_a : List String :=
  ["AAAAAAAA01", "AAAAAAAA02", "AAAAAAAA03", "AAAAAAAA04", "AAAAAAAA05",
   "AAAAAAAA06", "AAAAAAAA07", "AAAAAAAA08", "AAAAAAAA09", "AAAAAAAA10",
   "AAAAAAAA11", "AAAAAAAA12", "AAAAAAAA13", "AAAAAAAA14", "AAAAAAAA15",
   "AAAAAAAA16", "AAAAAAAA17", "AAAAAAAA18", "AAAAAAAA19", "AAAAAAAA20",
   "AAAAAAAA21", "AAAAAAAA22", "AAAAAAAA23", "AAAAAAAA24", "AAAAAAAA25"]

/-- Candidates 26-50 of the suffix loop for base `AAAAAAAA`. -/
def shorten_cand_b : List String :=
  ["AAAAAAAA26", "AAAAAAAA27", "AAAAAAAA28", "AAAAAAAA29", "AAAAAAAA30",
   "AAAAAAAA31", "AAAAAAAA32", "AAAAAAAA33", "AAAAAAAA34", "AAAAAAAA35",
   "AAAAAAAA36", "AAAAAAAA37", "AAAAAAAA38", "AAAAAAAA39", "AAAAAAAA40",
   "AAAAAAAA41", "AAAAAAAA42", "AAAAAAAA43", "AAAAAAAA44", "AAAAAAAA45",
   "AAAAAAAA46", "AAAAAAAA47", "AAAAAAAA48", "AAAAAAAA49", "AAAAAAAA50"]

/-- Candidates 51-75 of the suffix loop for base `AAAAAAAA`. -/
def shorten_cand_c : List String :=
  ["AAAAAAAA51", "AAAAAAAA52", "AAAAAAAA53", "AAAAAAAA54", "AAAAAAAA55",
   "AAAAAAAA56", "AAAAAAAA57", "AAAAAAAA58", "AAAAAAAA59", "AAAAAAAA60",
   "AAAAAAAA61", "AAAAAAAA62", "AAAAAAAA63", "AAAAAAAA64", "AAAAAAAA65",
   "AAAAAAAA66", "AAAAAAAA67", "AAAAAAAA68", "AAAAAAAA69", "AAAAAAAA70",
   "AAAAAAAA71", "AAAAAAAA72", "AAAAAAAA73", "AAAAAAAA74", "AAAAAAAA75"]

/-- Candidates 76-99 of the suffix loop for base `AAAAAAAA`. -/
def shorten_cand_d : List String :=
  ["AAAAAAAA76", "AAAAAAAA77", "AAAAAAAA78", "AAAAAAAA79", "AAAAAAAA80",
   "AAAAAAAA81", "AAAAAAAA82", "AAAAAAAA83", "AAAAAAAA84", "AAAAAAAA85",
   "AAAAAAAA86", "AAAAAAAA87", "AAAAAAAA88", "AAAAAAAA89", "AAAAAAAA90",
   "AAAAAAAA91", "AAAAAAAA92", "AAAAAAAA93", "AAAAAAAA94", "AAAAAAAA95",
   "AAAAAAAA96", "AAAAAAAA97", "AAAAAAAA98", "AAAAAAAA99"]

/-- An injective-on-this-input numeric key, used only to decide
distinctness of the net names cheaply. -/
def char_code_key (s : String) : ℕ :=
  s.data.foldl (fun a c => a * 256 + c.toNat) 0

set_option maxRecDepth 100000 in
set_option maxHeartbeats 1000000 in
lemma shorten_fold_a :
    List.foldl shorten_step ([], []) big_net_a = shorten_state_25 := by
  with_unfolding_all rfl

set_option maxRecDepth 100000 in
set_option maxHeartbeats 1000000 in
lemma shorten_fold_b :
    List.foldl shorten_step shorten_state_25 big_net_b = shorten_state_50 := by
  with_unfolding_all rfl

set_option maxRecDepth 100000 in
set_option maxHeartbeats 1000000 in
lemma shorten_fold_c :
    List.foldl shorten_step shorten_state_50 big_net_c = shorten_state_75 := by
  with_unfolding_all rfl

set_option maxRecDepth 100000 in
set_option maxHeartbeats 1000000 in
lemma shorten_fold_d :
    List.foldl shorten_step shorten_state_75 big_net_d = shorten_state_99 := by
  with_unfolding_all rfl

set_option maxRecDepth 100000 in
set_option maxHeartbeats 1000000 in
lemma shorten_cands_eq :
    shorten_candidates "AAAAAAAA"
      = shorten_cand_a ++ shorten_cand_b ++ shorten_cand_c ++ shorten_cand_d := by
  with_unfolding_all rfl

set_option maxRecDepth 100000 in
set_option maxHeartbeats 1000000 in
lemma shorten_scan_a :
    shorten_cand_a.find? (fun c => !(shorten_state_99.2.contains c)) = none := by
  with_unfolding_all rfl

set_option maxRecDepth 100000 in
set_option maxHeartbeats 1000000 in
lemma shorten_scan_b :
    shorten_cand_b.find? (fun c => !(shorten_state_99.2.contains c)) = none := by
  with_unfolding_all rfl

set_option maxRecDepth 100000 in
set_option maxHeartbeats 1000000 in
lemma shorten_scan_c :
    shorten_cand_c.find? (fun c => !(shorten_state_99.2.contains c)) = none := by
  with_unfolding_all rfl

set_option maxRecDepth 100000 in
set_option maxHeartbeats 1000000 in
lemma shorten_scan_d :
    shorten_cand_d.find? (fun c => !(shorten_state_99.2.contains c)) = none := by
  with_unfolding_all rfl

set_option maxRecDepth 100000 in
set_option maxHeartbeats 1000000 in
lemma shorten_pick_exhaust :
    shorten_pick shorten_state_99.2 "AAAAAAAA01" = "AAAAAAAA01" := by
  unfold shorten_pick
  have hb : ("AAAAAAAA01" : String).take (MAX_LABEL_LENGTH - 2) = "AAAAAAAA" := by
    with_unfolding_all rfl
  rw [hb, shorten_cands_eq]
  rw [List.find?_append, List.find?_append, List.find?_append]
  rw [shorten_scan_a, shorten_scan_b, shorten_scan_c, shorten_scan_d]
  with_unfolding_all rfl

set_option maxRecDepth 100000 in
set_option maxHeartbeats 1000000 in
lemma shorten_step_final :
    shorten_step shorten_state_99 "AAAAAAAA01X"
      = (shorten_expected_map,
        ["AAAAAAAA01", "AAAAAAAA99", "AAAAAAAA98", "AAAAAAAA97", "AAAAAAAA96",
         "AAAAAAAA95", "AAAAAAAA94", "AAAAAAAA93", "AAAAAAAA92", "AAAAAAAA91",
         "AAAAAAAA90", "AAAAAAAA89", "AAAAAAAA88", "AAAAAAAA87", "AAAAAAAA86",
         "AAAAAAAA85", "AAAAAAAA84", "AAAAAAAA83", "AAAAAAAA82", "AAAAAAAA81",
         "AAAAAAAA80", "AAAAAAAA79", "AAAAAAAA78", "AAAAAAAA77", "AAAAAAAA76",
         "AAAAAAAA75", "AAAAAAAA74", "AAAAAAAA73", "AAAAAAAA72", "AAAAAAAA71",
         "AAAAAAAA70", "AAAAAAAA69", "AAAAAAAA68", "AAAAAAAA67", "AAAAAAAA66",
         "AAAAAAAA65", "AAAAAAAA64", "AAAAAAAA63", "AAAAAAAA62", "AAAAAAAA61",
         "AAAAAAAA60", "AAAAAAAA59", "AAAAAAAA58", "AAAAAAAA57", "AAAAAAAA56",
         "AAAAAAAA55", "AAAAAAAA54", "AAAAAAAA53", "AAAAAAAA52", "AAAAAAAA51",
         "AAAAAAAA50", "AAAAAAAA49", "AAAAAAAA48", "AAAAAAAA47", "AAAAAAAA46",
         "AAAAAAAA45", "AAAAAAAA44", "AAAAAAAA43", "AAAAAAAA42", "AAAAAAAA41",
         "AAAAAAAA40", "AAAAAAAA39", "AAAAAAAA38", "AAAAAAAA37", "AAAAAAAA36",
         "AAAAAAAA35", "AAAAAAAA34", "AAAAAAAA33", "AAAAAAAA32", "AAAAAAAA31",
         "AAAAAAAA30", "AAAAAAAA29", "AAAAAAAA28", "AAAAAAAA27", "AAAAAAAA26",
         "AAAAAAAA25", "AAAAAAAA24", "AAAAAAAA23", "AAAAAAAA22", "AAAAAAAA21",
         "AAAAAAAA20", "AAAAAAAA19", "AAAAAAAA18", "AAAAAAAA17", "AAAAAAAA16",
         "AAAAAAAA15", "AAAAAAAA14", "AAAAAAAA13", "AAAAAAAA12", "AAAAAAAA11",
         "AAAAAAAA10", "AAAAAAAA09", "AAAAAAAA08", "AAAAAAAA07", "AAAAAAAA06",
         "AAAAAAAA05", "AAAAAAAA04", "AAAAAAAA03", "AAAAAAAA02", "AAAAAAAA01"]) := by
  have h : shorten_step shorten_state_99 "AAAAAAAA01X"
      = (shorten_state_99.1
          ++ [("AAAAAAAA01X", shorten_pick shorten_state_99.2 "AAAAAAAA01")],
         shorten_pick shorten_state_99.2 "AAAAAAAA01" :: shorten_state_99.2) := by
    with_unfolding_all rfl
  rw [h, shorten_pick_exhaust]
  with_unfolding_all rfl

set_option maxRecDepth 100000 in
set_option maxHeartbeats 1000000 in
lemma big_net_keys_nodup : (big_net_list.map char_code_key).Nodup := by
  with_unfolding_all decide

set_option maxRecDepth 100000 in
set_option maxHeartbeats 1000000 in
/-- C6: evaluation of `shorten_net_names` at the failing input.  The 100
input names are pairwise distinct, yet the produced mapping assigns the
two DISTINCT nets `AAAAAAAA01` and `AAAAAAAA01X` the SAME short name
`AAAAAAAA01`: the truncation of the eleven-character name collides, the
99-candidate suffix loop exhausts, and the code silently keeps the
colliding truncation, contradicting its own docstring and the claim.  The
final conjunct checks the claim's two-name example, which does work. -/
theorem claim_C6_duplicate_short_names :
    shorten_net_names big_net_list = shorten_expected_map ∧
    (shorten_net_names big_net_list).lookup "AAAAAAAA01" = some "AAAAAAAA01" ∧
    (shorten_net_names big_net_list).lookup "AAAAAAAA01X" = some "AAAAAAAA01" ∧
    ("AAAAAAAA01" : String) ≠ "AAAAAAAA01X" ∧
    big_net_list.Nodup ∧
    shorten_net_names ["VERY_LONG_NET_NAME_A", "VERY_LONG_NET_NAME_B"]
      = [("VERY_LONG_NET_NAME_A", "VERY_LONG_"), ("VERY_LONG_NET_NAME_B", "VERY_LON01")] := by
  have hmap : shorten_net_names big_net_list = shorten_expected_map := by
    show (List.foldl shorten_step ([], [])
        (big_net_a ++ big_net_b ++ big_net_c ++ big_net_d ++ ["AAAAAAAA01X"])).1
      = shorten_expected_map
    simp only [List.foldl_append, List.foldl_cons, List.foldl_nil]
    rw [shorten_fold_a, shorten_fold_b, shorten_fold_c, shorten_fold_d, shorten_step_final]
  refine ⟨hmap, ?_, ?_, ?_,
    List.Nodup.of_map char_code_key big_net_keys_nodup, ?_⟩
  · rw [hmap]; with_unfolding_all rfl
  · rw [hmap]; with_unfolding_all rfl
  · with_unfolding_all decide
  · with_unfolding_all rfl

/-! C7: anchor ordering (lines 930-970). -/

/-- Python `str.startswith` as used by `sort_key` (lines 933-943), on the
underlying character list. -/
def py_startswith (s pre : String) : Bool := pre.data.isPrefixOf s.data

/-- Function `sort_key` (lines 931-946): bucket main parts by reference
prefix — U, J, D, ENC, SW, TP, everything else — tie-broken by the full
ref. -/
def sort_key (ref : String) : ℕ × String :=
  if py_startswith ref "U" then (0, ref)
  else if py_startswith ref "J" then (1, ref)
  else if py_startswith ref "D" then (2, ref)
  else if py_startswith ref "ENC" then (3, ref)
  else if py_startswith ref "SW" then (4, ref)
  else if py_startswith ref "TP" then (5, ref)
  else (6, ref)

/-- Python tuple `(bucket, ref) ≤ (bucket, ref)` comparison used by
`main_parts.sort(key=sort_key)` (line 948): lexicographic. -/
def key_le (r1 r2 : String) : Prop :=
  (sort_key r1).1 < (sort_key r2).1 ∨
    ((sort_key r1).1 = (sort_key r2).1 ∧ (sort_key r1).2 ≤ (sort_key r2).2)

instance : DecidableRel key_le := fun a b => by
  unfold key_le
  infer_instance

instance : IsTrans String key_le := by
  constructor
  intro a b c hab hbc
  unfold key_le at *
  rcases hab with h1 | ⟨h1, h1s⟩ <;> rcases hbc with h2 | ⟨h2, h2s⟩
  · exact Or.inl (lt_trans h1 h2)
  · exact Or.inl (h2 ▸ h1)
  · exact Or.inl (h1 ▸ h2)
  · exact Or.inr ⟨h1.trans h2, le_trans h1s h2s⟩

instance : IsTotal String key_le := by
  constructor
  intro a b
  unfold key_le
  rcases Nat.lt_trichotomy (sort_key a).1 (sort_key b).1 with h | h | h
  · exact Or.inl (Or.inl h)
  · rcases le_total (sort_key a).2 (sort_key b).2 with hs | hs
    · exact Or.inl (Or.inr ⟨h, hs⟩)
    · exact Or.inr (Or.inr ⟨h.symm, hs⟩)
  · exact Or.inr (Or.inl h)

/-- `main_parts.sort(key=sort_key)` (line 948).  Python's sort is stable;
on a total preorder the stable sorted rearrangement is unique, so the
stable `insertionSort` models it exactly. -/
def sort_main_refs (refs : List String) : List String :=
  refs.insertionSort key_le

/-- Category ranking AS CLAIM C7 STATES IT (active ICs, connectors,
switches, diodes, crystals, test points, everything else) — written from
the claim's words, for comparison against the source's `sort_key`;
crystals carry the conventional `Y` prefix. -/
def claimed_category (ref : String) : ℕ :=
  if py_startswith ref "U" then 0
  else if py_startswith ref "J" then 1
  else if py_startswith ref "SW" then 2
  else if py_startswith ref "D" then 3
  else if py_startswith ref "Y" then 4
  else if py_startswith ref "TP" then 5
  else 6

/-- C7 counterexample: the claim's category order puts switches before
diodes and crystals before test points, but the code sorts `D1` (bucket 2)
before `SW1` (bucket 4) and gives the crystal `Y1` the catch-all bucket 6
AFTER test points (bucket 5): the claimed order and the code's order
disagree on the concrete anchor set. -/
theorem claim_C7_counterexample :
    sort_main_refs ["SW1", "D1"] = ["D1", "SW1"] ∧
    (["D1", "SW1"] : List String) ≠ ["SW1", "D1"] ∧
    claimed_category "SW1" < claimed_category "D1" ∧
    claimed_category "Y1" < claimed_category "TP1" ∧
    sort_key "TP1" = (5, "TP1") ∧
    sort_key "Y1" = (6, "Y1") := by
  refine ⟨?_, ?_, ?_, ?_, ?_, ?_⟩ <;> with_unfolding_all decide

/-- Grid cell center for the anchor of rank `idx` (lines 952-958): column
`idx % cols`, row `idx / cols` of the usable area. -/
def anchor_cell_center (cols : ℕ) (cell_width cell_height : ℚ) (idx : ℕ) : Point :=
  ⟨SHEET_MARGIN + ((idx % cols : ℕ) : ℚ) * cell_width + cell_width/2,
   SHEET_MARGIN + ((idx / cols : ℕ) : ℚ) * cell_height + cell_height/2⟩

/-- The `for idx, part in enumerate(main_parts)` placement loop
(lines 952-970), carrying the running rank. -/
def place_main_go (cols : ℕ) (cw ch : ℚ) (symd : String → ℚ × ℚ × ℚ) :
    ℕ → List String → List (String × Point)
  | _, [] => []
  | idx, r :: rs =>
    (r, anchor_grid_pos (anchor_cell_center cols cw ch idx)
      (symd r).1 (symd r).2.1 (symd r).2.2) ::
      place_main_go cols cw ch symd (idx + 1) rs

/-- Step 3 of `place_parts_by_group` (lines 948-970): sort the main refs,
then place the rank-`idx` one at the snapped, constrained center of grid
cell `(idx % cols, idx / cols)`. -/
def place_main_parts (refs : List String) (cols : ℕ) (cw ch : ℚ)
    (symd : String → ℚ × ℚ × ℚ) : List (String × Point) :=
  place_main_go cols cw ch symd 0 (sort_main_refs refs)

theorem place_main_go_get (cols : ℕ) (cw ch : ℚ) (symd : String → ℚ × ℚ × ℚ) :
    ∀ (l : List String) (start idx : ℕ),
      (place_main_go cols cw ch symd start l).get? idx
        = (l.get? idx).map (fun r => (r, anchor_grid_pos
            (anchor_cell_center cols cw ch (start + idx))
            (symd r).1 (symd r).2.1 (symd r).2.2)) := by
  intro l
  induction l with
  | nil =>
    intro start idx
    cases idx <;> rfl
  | cons r rs ih =>
    intro start idx
    cases idx with
    | zero => simp [place_main_go]
    | succ n =>
      show (place_main_go cols cw ch symd (start + 1) rs).get? n = _
      rw [ih (start + 1) n]
      have harith : start + 1 + n = start + (n + 1) := by omega
      rw [harith]
      rfl

/-- C7 (amended): before grid placement the main parts are sorted by the
fixed category order active ICs (`U`), connectors (`J`), diodes (`D`),
rotary encoders (`ENC`), switches (`SW`), test points (`TP`), then
everything else (crystals land in the catch-all), alphanumerically by ref
within each bucket; the result is a permutation of the mains sorted under
that key order, and the anchor of rank `idx` is assigned the grid cell
`(idx % cols, idx / cols)`. -/
theorem claim_C7_amended :
    (∀ refs : List String, (sort_main_refs refs).Perm refs) ∧
    (∀ refs : List String, (sort_main_refs refs).Sorted key_le) ∧
    (∀ s : String, sort_key ("U" ++ s) = (0, "U" ++ s)) ∧
    (∀ s : String, sort_key ("J" ++ s) = (1, "J" ++ s)) ∧
    (∀ s : String, sort_key ("D" ++ s) = (2, "D" ++ s)) ∧
    (∀ s : String, sort_key ("ENC" ++ s) = (3, "ENC" ++ s)) ∧
    (∀ s : String, sort_key ("SW" ++ s) = (4, "SW" ++ s)) ∧
    (∀ s : String, sort_key ("TP" ++ s) = (5, "TP" ++ s)) ∧
    (∀ (refs : List String) (cols : ℕ) (cw ch : ℚ)
        (symd : String → ℚ × ℚ × ℚ) (idx : ℕ),
      (place_main_parts refs cols cw ch symd).get? idx
        = ((sort_main_refs refs).get? idx).map (fun r => (r, anchor_grid_pos
            (anchor_cell_center cols cw ch idx)
            (symd r).1 (symd r).2.1 (symd r).2.2))) := by
  refine ⟨?_, ?_, ?_, ?_, ?_, ?_, ?_, ?_, ?_⟩
  · intro refs
    exact List.perm_insertionSort key_le refs
  · intro refs
    exact List.sorted_insertionSort key_le refs
  · intro s
    simp [sort_key, py_startswith, String.data_append, List.isPrefixOf]
  · intro s
    simp [sort_key, py_startswith, String.data_append, List.isPrefixOf]
  · intro s
    simp [sort_key, py_startswith, String.data_append, List.isPrefixOf]
  · intro s
    simp [sort_key, py_startswith, String.data_append, List.isPrefixOf]
  · intro s
    simp [sort_key, py_startswith, String.data_append, List.isPrefixOf]
  · intro s
    simp [sort_key, py_startswith, String.data_append, List.isPrefixOf]
  · intro refs cols cw ch symd idx
    unfold place_main_parts
    rw [place_main_go_get]
    simp

/-! C1: determinism of the emitted text.  The S-expression writer
(lines 31-87) and the head of `generate_schematic` (lines 1484-1503). -/

/-- Keyword set `SexpWriter.KEYWORDS` (lines 66-69). -/
def KEYWORDS : List String :=
  ["yes", "no", "default", "none", "left", "right", "top", "bottom",
   "center", "hide", "input", "output", "bidirectional", "passive",
   "power_in", "power_out", "open_collector", "open_emitter",
   "unconnected", "unspecified", "line", "inverted", "clock"]

/-- Tail of the numeric-literal regex of `_format_arg` (line 74):
after the leading digit run, either nothing or a dot followed by digits. -/
def numeric_re_tail : List Char → Bool
  | [] => true
  | '.' :: tl => tl.all Char.isDigit
  | _ => false

/-- Body of the regex match `^-?\d+\.?\d*$` (line 74): one or more digits,
an optional dot, then any digits, consuming the whole string. -/
def numeric_re_core (l : List Char) : Bool :=
  !(l.takeWhile Char.isDigit).isEmpty && numeric_re_tail (l.dropWhile Char.isDigit)

/-- The numeric-literal check of `_format_arg` (line 74), with the
optional leading minus. -/
def matches_numeric (s : String) : Bool :=
  match s.data with
  | '-' :: rest => numeric_re_core rest
  | l => numeric_re_core l

/-- Python `" ".join(parts)` (lines 50, 53, 63). -/
def join_sp : List String → String
  | [] => ""
  | [s] => s
  | s :: rest => s ++ " " ++ join_sp rest

/-- Method `_format_arg` restricted to string arguments (lines 71-76):
already-quoted, keyword, and numeric-looking strings pass through
unchanged, everything else is wrapped in double quotes.  (The float/int
/bool branches of lines 77-84 are not exercised by the header, whose
arguments are all strings.) -/
def format_arg_str (s : String) : String :=
  if s.data.head? = some '"' || KEYWORDS.contains s || matches_numeric s then s
  else "\"" ++ s ++ "\""

/-- Class `SexpWriter` (lines 31-44): the emitted lines and the current
indentation level. -/
structure SexpWriter where
  lines : List String
  indent_level : ℕ
deriving DecidableEq

/-- `SexpWriter.__init__` (lines 34-37). -/
def SexpWriter.init : SexpWriter := ⟨[], 0⟩

/-- The indent string `indent_char * indent_level` (lines 37-40); the
indent char is a tab. -/
def tabs (n : ℕ) : String := String.mk (List.replicate n '\t')

/-- Method `line` (lines 42-44). -/
def SexpWriter.addLine (w : SexpWriter) (text : String) : SexpWriter :=
  { w with lines := w.lines ++ [tabs w.indent_level ++ text] }

/-- Method `open` in its newline branch (lines 46-51); named `openBlk`
because `open` is reserved in Lean. -/
def SexpWriter.openBlk (w : SexpWriter) (name : String) (args : List String) :
    SexpWriter :=
  let w' := w.addLine ("(" ++ join_sp (name :: args.map format_arg_str))
  { w' with indent_level := w'.indent_level + 1 }

/-- Method `close` (lines 55-58); named `closeBlk` for symmetry. -/
def SexpWriter.closeBlk (w : SexpWriter) : SexpWriter :=
  let w' : SexpWriter := { w with indent_level := w.indent_level - 1 }
  w'.addLine ")"

/-- Method `atom` (lines 60-63). -/
def SexpWriter.atom (w : SexpWriter) (name : String) (args : List String) :
    SexpWriter :=
  w.addLine ("(" ++ join_sp (name :: args.map format_arg_str) ++ ")")

/-- The first twelve lines of every `generate_schematic` output
(lines 1484-1503): header atoms and the title block.  `root_uuid` is the
string `generate_uuid()` returns (lines 90-92) — a fresh `uuid.uuid4()`
drawn from the operating system's entropy, NOT from the `random.seed(42)`
stream — and `date` is `datetime.now().strftime("%Y-%m-%d")` (line 1500);
both are run-time inputs of the embedding because the program reads them
from the environment, not from the parts list or the library text. -/
def schematic_prelude (title date root_uuid : String) : List String :=
  (SexpWriter.init.openBlk "kicad_sch" []
    |>.atom "version" ["20250114"]
    |>.atom "generator" ["eeschema"]
    |>.atom "generator_version" ["\"9.0\""]
    |>.atom "uuid" [root_uuid]
    |>.atom "paper" ["A3"]
    |>.openBlk "title_block" []
    |>.atom "title" [title]
    |>.atom "date" [date]
    |>.atom "rev" ["\"1.0\""]
    |>.atom "comment" ["1", "Generated by SKiDL KiCad 9 Generator"]
    |>.closeBlk).lines

/-- C1 counterexample: two engine runs on byte-identical input (same
title, parts and library) whose `uuid.uuid4()` draws differ emit different
text already in the schematic prelude — the output is NOT a function of
the input alone, because `generate_uuid` does not draw from the seeded
pseudo-random generator. -/
theorem claim_C1_counterexample :
    schematic_prelude "Generated Schematic" "2026-02-03"
        "11111111-1111-1111-1111-111111111111"
      ≠ schematic_prelude "Generated Schematic" "2026-02-03"
        "22222222-2222-2222-2222-222222222222" := by
  with_unfolding_all decide

/-- C1 (amended): the emitted text is a deterministic function of the
engine input TOGETHER WITH the fresh UUID draw and the wall-clock date;
moreover the root UUID is embedded verbatim (quoted) in the output, so two
runs whose `uuid4` draws differ produce different bytes even on
byte-identical engine input.  The hypotheses say the two draws are
ordinary UUID strings (quoted by the formatter) and distinct. -/
theorem claim_C1_amended (title date u1 u2 : String)
    (h1 : format_arg_str u1 = "\"" ++ u1 ++ "\"")
    (h2 : format_arg_str u2 = "\"" ++ u2 ++ "\"")
    (hne : u1 ≠ u2) :
    schematic_prelude title date u1 ≠ schematic_prelude title date u2 := by
  intro heq
  apply hne
  simp only [schematic_prelude, SexpWriter.init, SexpWriter.openBlk,
    SexpWriter.atom, SexpWriter.closeBlk, SexpWriter.addLine, join_sp,
    List.map, h1, h2, List.nil_append, List.cons_append, List.append_assoc,
    List.singleton_append, List.cons.injEq, and_true, true_and] at heq
  have hd := congrArg String.data heq
  simp only [tabs, List.replicate, String.data_append, List.append_assoc,
    List.nil_append, List.cons_append, List.singleton_append,
    List.cons.injEq, true_and] at hd
  have hdd := List.append_cancel_right hd
  have hstr : ∀ a b : String, a.data = b.data → a = b := by
    intro a b h
    cases a
    cases b
    exact congrArg String.mk (by simpa using h)
  exact hstr _ _ hdd

/-- C1 amended witness: two concrete distinct plain UUID draws yield
provably different preludes for the same title and date. -/
theorem claim_C1_amended_witness :
    schematic_prelude "t" "2026-02-03" "aaaa" ≠
      schematic_prelude "t" "2026-02-03" "bbbb" :=
  claim_C1_amended "t" "2026-02-03" "aaaa" "bbbb"
    (by with_unfolding_all decide) (by with_unfolding_all decide)
    (by decide)

/-! C9: the symbol-library parser `parse_kicad_sym` (lines 202-318).
The regex-based scanner is embedded as explicit character-list matchers
with the same semantics on well-formed input: greedy character classes
(`\s+`, `\w+`, `[-\d.]+` are all followed by tokens outside the class, so
maximal munch equals regex backtracking), lazy `.*?` as
scan-for-first-occurrence, and `finditer` as a left-to-right scan resuming
after each match's end.  Loops over a suffix produced by a matcher recurse
on a fuel counter bounded by the remaining length, which structural
recursion requires; the fuel never runs out because every step consumes at
least one character. -/

/-- Python regex class `\s` (ASCII range). -/
def is_ws (c : Char) : Bool :=
  c = ' ' || c = '\t' || c = '\n' || c = '\r' || c = '\x0b' || c = '\x0c'

/-- Python regex class `\w` (ASCII range). -/
def is_word_char (c : Char) : Bool := c.isAlphanum || c = '_'

/-- The character class `[-\d.]`. -/
def is_num_char (c : Char) : Bool := c.isDigit || c = '-' || c = '.'

/-- Match a literal character sequence, returning the rest. -/
def strip_lit : List Char → List Char → Option (List Char)
  | [], l => some l
  | _, [] => none
  | p :: ps, c :: cs => if c = p then strip_lit ps cs else none

/-- Split a list at the end of the run satisfying `p`; the suffix is
returned structurally (shared with the input), which keeps kernel
evaluation of the matcher chains linear. -/
def span_while (p : Char → Bool) : List Char → List Char × List Char
  | [] => ([], [])
  | c :: cs =>
    if p c then
      match span_while p cs with
      | (pre, rest) => (c :: pre, rest)
    else ([], c :: cs)

/-- Greedy one-or-more match of a character class (`\s+`, `\w+`, ...):
the matched run and the rest. -/
def take1 (p : Char → Bool) (l : List Char) : Option (List Char × List Char) :=
  match span_while p l with
  | ([], _) => none
  | (pre, rest) => some (pre, rest)

/-- Capture `([^"]*)` followed by the closing `"`. -/
def take_quoted (l : List Char) : Option (List Char × List Char) :=
  match span_while (fun c => !(c = '"')) l with
  | (s, '"' :: rest) => some (s, rest)
  | _ => none

/-- Decimal digit-run value. -/
def digits_val (l : List Char) : ℕ :=
  l.foldl (fun acc c => acc * 10 + (c.toNat - 48)) 0

/-- Unsigned part of Python `float()` on a `[-\d.]+` token:
`ddd`, `ddd.ddd`, `ddd.` or `.ddd`; `none` models the `ValueError` any
other shape raises. -/
def py_float_core (l : List Char) : Option ℚ :=
  match span_while Char.isDigit l with
  | (ip, []) => if ip.isEmpty then none else some (digits_val ip : ℚ)
  | (ip, '.' :: frac) =>
    if frac.all Char.isDigit && !(ip.isEmpty && frac.isEmpty) then
      some ((digits_val ip : ℚ) + (digits_val frac : ℚ) / (10 ^ frac.length : ℚ))
    else none
  | _ => none

/-- Python `float()` on a `[-\d.]+` token (used at lines 254-257). -/
def py_float (l : List Char) : Option ℚ :=
  match l with
  | '-' :: rest => (py_float_core rest).map (fun q => -q)
  | rest => py_float_core rest

/-- `find_matching_paren` (lines 212-224) rephrased as the LENGTH of the
balanced block starting at the current position (the source returns the
index of the matching `)`; the caller slices up to and including it). -/
def find_matching_len : List Char → ℤ → ℕ → Option ℕ
  | [], _, _ => none
  | c :: cs, depth, acc =>
    if c = '(' then find_matching_len cs (depth + 1) (acc + 1)
    else if c = ')' then
      if depth - 1 = 0 then some (acc + 1)
      else find_matching_len cs (depth - 1) (acc + 1)
    else find_matching_len cs depth (acc + 1)

/-- The top-level pattern `\n(\s+)\(symbol "([^"]+)"\s+\(in_bom`
(line 228), tried just after a newline: returns the symbol name, the text
after the match (where scanning resumes) and the text from the `(` of
`(symbol` (where brace matching starts). -/
def try_symbol_header (cs : List Char) :
    Option (String × List Char × List Char) :=
  (take1 is_ws cs).bind fun ir =>
  (strip_lit "(symbol \"".data ir.2).bind fun r2 =>
  (take1 (fun c => !(c = '"')) r2).bind fun nr =>
  (strip_lit "\"".data nr.2).bind fun r4 =>
  (take1 is_ws r4).bind fun wr =>
  (strip_lit "(in_bom".data wr.2).map fun r6 =>
  (String.mk nr.1, r6, ir.2)

/-- The `finditer` scan of the top-level pattern (lines 229-239): find
each match after a newline, slice the balanced block, resume after the
match end; a block with no matching `)` is skipped (line 236). -/
def scan_top_go : ℕ → List Char → List (String × List Char)
  | 0, _ => []
  | _, [] => []
  | fuel + 1, c :: cs =>
    if c = '\n' then
      match try_symbol_header cs with
      | some (name, afterHeader, fromParen) =>
        match find_matching_len fromParen 0 0 with
        | some n => (name, fromParen.take n) :: scan_top_go fuel afterHeader
        | none => scan_top_go fuel afterHeader
      | none => scan_top_go fuel cs
    else scan_top_go fuel cs

/-- The sub-unit test `_\d+_\d+$` (line 242), read from the end of the
name. -/
def ends_unit_suffix (name : List Char) : Bool :=
  match span_while Char.isDigit name.reverse with
  | (_ :: _, '_' :: r2) =>
    match span_while Char.isDigit r2 with
    | (_ :: _, '_' :: _) => true
    | _ => false
  | _ => false

/-- Lazy search `.*?` up to `tag` + `\s+` + `"` (the `\(name\s+"` and
`\(number\s+"` parts of the pin pattern, line 248): first position where
the sub-pattern matches, returning the rest after the opening quote. -/
def find_tag_quote (tag : List Char) : ℕ → List Char → Option (List Char)
  | 0, _ => none
  | _, [] => none
  | fuel + 1, l =>
    match (strip_lit tag l).bind (fun r =>
        (take1 is_ws r).bind fun wr => strip_lit "\"".data wr.2) with
    | some r => some r
    | none => find_tag_quote tag fuel l.tail

/-- The pin pattern (lines 247-249) is matched in stages (each stage a
separate definition keeps kernel evaluation of the bind chain cheap).
Stage 1: `\(pin\s+(\w+)\s+\w+\s*` — the electrical type capture and the
skipped graphics-style word. -/
def pin_s1 (l : List Char) : Option (List Char × List Char) :=
  (strip_lit "(pin".data l).bind fun r1 =>
  (take1 is_ws r1).bind fun er =>
  (take1 is_word_char er.2).bind fun elecr =>
  (take1 is_ws elecr.2).bind fun wr1 =>
  (take1 is_word_char wr1.2).map fun gr => (elecr.1, gr.2)

/-- Pin pattern stage 2: `\(at\s+([-\d.]+)\s+([-\d.]+)\s+(\d+)\)` — the
position and rotation captures, with `float()`/`int()` conversion
(lines 254-256). -/
def pin_s2 (l : List Char) : Option (ℚ × ℚ × ℤ × List Char) :=
  (strip_lit "(at".data (l.dropWhile is_ws)).bind fun r7 =>
  (take1 is_ws r7).bind fun wr2 =>
  (take1 is_num_char wr2.2).bind fun xr =>
  (py_float xr.1).bind fun xq =>
  (take1 is_ws xr.2).bind fun wr3 =>
  (take1 is_num_char wr3.2).bind fun yr =>
  (py_float yr.1).bind fun yq =>
  (take1 is_ws yr.2).bind fun wr4 =>
  (take1 Char.isDigit wr4.2).bind fun rotr =>
  (strip_lit ")".data rotr.2).map fun r14 =>
  (xq, yq, (digits_val rotr.1 : ℤ), r14)

/-- Pin pattern stage 3: `\s*\(length\s+([-\d.]+)\)` (line 248,
conversion line 257). -/
def pin_s3 (l : List Char) : Option (ℚ × List Char) :=
  (strip_lit "(length".data (l.dropWhile is_ws)).bind fun r16 =>
  (take1 is_ws r16).bind fun wr5 =>
  (take1 is_num_char wr5.2).bind fun lenr =>
  (py_float lenr.1).bind fun lenq =>
  (strip_lit ")".data lenr.2).map fun r19 =>
  (lenq, r19)

/-- Pin pattern stage 4: `.*?tag\s+"([^"]*)"` for `tag` one of `(name`,
`(number` (line 248, captures lines 258-259). -/
def pin_s4 (tag : List Char) (l : List Char) : Option (String × List Char) :=
  (find_tag_quote tag l.length l).bind fun r20 =>
  (take_quoted r20).map fun namer => (String.mk namer.1, namer.2)

/-- The full pin pattern (lines 247-249), tried at one position; yields
the parsed `SymbolPin` (lines 252-269) and the rest after the match. -/
def try_pin (l : List Char) : Option (SymbolPin × List Char) :=
  (pin_s1 l).bind fun s1 =>
  (pin_s2 s1.2).bind fun s2 =>
  (pin_s3 s2.2.2.2).bind fun s3 =>
  (pin_s4 "(name".data s3.2).bind fun s4 =>
  (pin_s4 "(number".data s4.2).map fun s5 =>
  (⟨s4.1, s5.1, s2.1, s2.2.1, s2.2.2.1, s3.1, String.mk s1.1⟩, s5.2)

/-- `finditer` over the pin pattern inside one symbol block
(lines 252-269): scan left to right, resume after each match end. -/
def scan_pins : ℕ → List Char → List SymbolPin
  | 0, _ => []
  | _, [] => []
  | fuel + 1, l =>
    match try_pin l with
    | some (pin, rest) => pin :: scan_pins fuel rest
    | none => scan_pins fuel l.tail

/-- The property pattern `\(property "(\w+)" "([^"]*)"` (line 273), tried
at one position. -/
def try_prop (l : List Char) : Option ((String × String) × List Char) :=
  (strip_lit "(property \"".data l).bind fun r1 =>
  (take1 is_word_char r1).bind fun keyr =>
  (strip_lit "\" \"".data keyr.2).bind fun r3 =>
  (take_quoted r3).map fun valr =>
  ((String.mk keyr.1, String.mk valr.1), valr.2)

/-- `finditer` over the property pattern (lines 273-275). -/
def scan_props : ℕ → List Char → List (String × String)
  | 0, _ => []
  | _, [] => []
  | fuel + 1, l =>
    match try_prop l with
    | some (kv, rest) => kv :: scan_props fuel rest
    | none => scan_props fuel l.tail

/-- Rectangle pattern stage 1:
`\(rectangle\s+\(start\s+([-\d.]+)\s+([-\d.]+)\)` (line 291). -/
def rect_s1 (l : List Char) : Option (ℚ × ℚ × List Char) :=
  (strip_lit "(rectangle".data l).bind fun r1 =>
  (take1 is_ws r1).bind fun wr0 =>
  (strip_lit "(start".data wr0.2).bind fun r3 =>
  (take1 is_ws r3).bind fun wr1 =>
  (take1 is_num_char wr1.2).bind fun x1r =>
  (py_float x1r.1).bind fun x1 =>
  (take1 is_ws x1r.2).bind fun wy =>
  (take1 is_num_char wy.2).bind fun y1r =>
  (py_float y1r.1).bind fun y1 =>
  (strip_lit ")".data y1r.2).map fun r8 => (x1, y1, r8)

/-- Rectangle pattern stage 2: `\s*\(end\s+([-\d.]+)\s+([-\d.]+)\)`
(line 291). -/
def rect_s2 (l : List Char) : Option (ℚ × ℚ) :=
  (strip_lit "(end".data (l.dropWhile is_ws)).bind fun r10 =>
  (take1 is_ws r10).bind fun wr3 =>
  (take1 is_num_char wr3.2).bind fun x2r =>
  (py_float x2r.1).bind fun x2 =>
  (take1 is_ws x2r.2).bind fun wr4 =>
  (take1 is_num_char wr4.2).bind fun y2r =>
  (py_float y2r.1).bind fun y2 =>
  (strip_lit ")".data y2r.2).map fun _ => (x2, y2)

/-- The rectangle pattern (line 291, used for the pin-less fallback of
lines 290-299), tried at one position. -/
def try_rect (l : List Char) : Option (ℚ × ℚ × ℚ × ℚ) :=
  (rect_s1 l).bind fun s1 =>
  (rect_s2 s1.2.2).map fun s2 => (s1.1, s1.2.1, s2.1, s2.2)

/-- `rect_pattern.search` (line 292): first match in the block. -/
def find_rect : ℕ → List Char → Option (ℚ × ℚ × ℚ × ℚ)
  | 0, _ => none
  | _, [] => none
  | fuel + 1, l =>
    match try_rect l with
    | some r => some r
    | none => find_rect fuel l.tail

/-- Python-dict insertion (overwrite on existing key, append otherwise),
for the `pins[name] = ...`, `properties[...] = ...` and
`symbols[sym_name] = ...` assignments. -/
def dinsert {β : Type} (m : List (String × β)) (k : String) (v : β) :
    List (String × β) :=
  if (m.lookup k).isSome then m.map (fun p => if p.1 = k then (k, v) else p)
  else m ++ [(k, v)]

/-- Build one `SymbolDef` from a matched block (lines 245-316): extract
the pin dict and property dict, then compute width/height and the
asymmetric Y extents — from the pin coordinates plus a 5 mm margin when
pins exist, else from the first rectangle primitive, else the fixed 20 mm
square with 10 mm default extents. -/
def build_symbol_def (sym_name : String) (sym_content : List Char) : SymbolDef :=
  let pin_list := scan_pins sym_content.length sym_content
  let pins := pin_list.foldl (fun m p => dinsert m p.name p) []
  let properties := (scan_props sym_content.length sym_content).foldl
    (fun m kv => dinsert m kv.1 kv.2) []
  match pins.map (fun kv => kv.2) with
  | v :: vs =>
    let maxX := (vs.map (fun p => p.x)).foldl max v.x
    let minX := (vs.map (fun p => p.x)).foldl min v.x
    let maxY := (vs.map (fun p => p.y)).foldl max v.y
    let minY := (vs.map (fun p => p.y)).foldl min v.y
    let yd := -minY + 5
    ⟨sym_name, "JLCPCB", pins, properties, String.mk sym_content,
      maxX - minX + 10, maxY - minY + 10, maxY + 5, if yd < 0 then 0 else yd⟩
  | [] =>
    match find_rect sym_content.length sym_content with
    | some (x1, y1, x2, y2) =>
      ⟨sym_name, "JLCPCB", pins, properties, String.mk sym_content,
        |x2 - x1|, |y2 - y1|, max y1 y2 + 5,
        if min y1 y2 < 0 then -(min y1 y2) + 5 else 0⟩
    | none =>
      ⟨sym_name, "JLCPCB", pins, properties, String.mk sym_content,
        20, 20, 10, 10⟩

/-- Function `parse_kicad_sym` (lines 202-318) on the library text:
scan the top-level symbol blocks, skip sub-units, and build the
name-to-definition dict. -/
def parse_kicad_sym (content : String) : List (String × SymbolDef) :=
  (scan_top_go content.data.length content.data).foldl
    (fun symbols nc =>
      if ends_unit_suffix nc.1.data then symbols
      else dinsert symbols nc.1 (build_symbol_def nc.1 nc.2)) []

/-- The synthetic two-pin library of the claim: one symbol `TestSym` with
pins at `(0, 0)` rotation 0 and `(0, -5)` rotation 180. -/
def sample_library : String :=
  "(kicad_symbol_lib\n\t(symbol \"TestSym\" (in_bom yes) (on_board yes)\n\t\t(pin passive line (at 0 0 0) (length 2.54)\n\t\t\t(name \"A\" (effects))\n\t\t\t(number \"1\" (effects))\n\t\t)\n\t\t(pin passive line (at 0 -5 180) (length 2.54)\n\t\t\t(name \"B\" (effects))\n\t\t\t(number \"2\" (effects))\n\t\t)\n\t)\n)\n"

set_option maxRecDepth 100000 in
set_option maxHeartbeats 4000000 in
/-- C9: parsing the synthetic two-pin library yields a `TestSym` entry
whose pin dict holds exactly the two pins `(0,0,rot 0)` and
`(0,-5,rot 180)` and whose `y_extent_down` is `-(-5) + 5 = 10`, at least
the claimed 5 (pin extents plus the fixed 5 mm margin, lines 277-289). -/
theorem claim_C9_parser_extents :
    (((parse_kicad_sym sample_library).lookup "TestSym").map
      (fun d => (d.pins.lookup "A", d.pins.lookup "B", d.pins.length,
        d.y_extent_down, decide (5 ≤ d.y_extent_down))))
      = some (some ⟨"A", "1", 0, 0, 0, 127/50, "passive"⟩,
              some ⟨"B", "2", 0, -5, 180, 127/50, "passive"⟩, 2, 10, true) := by
  with_unfolding_all decide

end KicadSch
